import Mathlib

/-! DS3232RTC register protocol.

A shallow embedding of `library/DS3232RTC/src/DS3232RTC.cpp`, the driver of the
Maxim DS3232 / DS3231 real-time clock, together with a simulated register store
standing for the chip behind the two-wire bus.

Bytes (`byte`, `uint8_t`) are natural numbers reduced modulo 256 wherever the C++
code converts to an 8-bit type.  Stateful code is written in state-passing style
over `Sim`, the simulated device plus the driver's static `errCode`.
-/

namespace DS3232RTC

/-! ## Constants of the header `DS3232RTC.h` and of the Time library

Neither header is among the sources.  The register addresses and bit positions
are those of the DS3232 register map, which the driver reproduces; the year
macros and `tmElements_t` are those of the Time library the driver is built on
(years counted from 1970, the chip's two-digit year counted from 2000). -/

/-- Modelled from the spec: the header DS3232RTC.h is not among the sources;
I2C address of the chip. -/
def RTC_ADDR : Nat := 0x68

/-- Modelled from the spec: the header DS3232RTC.h is not among the sources;
address of the seconds register, first of the seven time registers. -/
def RTC_SECONDS : Nat := 0x00

/-- Modelled from the spec: the header DS3232RTC.h is not among the sources;
address of the hours register. -/
def RTC_HOURS : Nat := 0x02

/-- Modelled from the spec: the header DS3232RTC.h is not among the sources;
address of the day-of-week register. -/
def RTC_DAY : Nat := 0x03

/-- Modelled from the spec: the header DS3232RTC.h is not among the sources;
address of the month register. -/
def RTC_MONTH : Nat := 0x05

/-- Modelled from the spec: the header DS3232RTC.h is not among the sources;
base register of alarm 1. -/
def ALM1_SECONDS : Nat := 0x07

/-- Modelled from the spec: the header DS3232RTC.h is not among the sources;
base register of alarm 2. -/
def ALM2_MINUTES : Nat := 0x0B

/-- Modelled from the spec: the header DS3232RTC.h is not among the sources;
address of the control register. -/
def RTC_CONTROL : Nat := 0x0E

/-- Modelled from the spec: the header DS3232RTC.h is not among the sources;
address of the status register. -/
def RTC_STATUS : Nat := 0x0F

/-- Modelled from the spec: the header DS3232RTC.h is not among the sources;
address of the temperature high byte. -/
def RTC_TEMP_MSB : Nat := 0x11

/-- Modelled from the spec: the header DS3232RTC.h is not among the sources;
address of the temperature low byte. -/
def RTC_TEMP_LSB : Nat := 0x12

/-- Modelled from the spec: the header DS3232RTC.h is not among the sources;
alarm 1 mask bit of the seconds byte. -/
def A1M1 : Nat := 7

/-- Modelled from the spec: the header DS3232RTC.h is not among the sources;
alarm mask bit of the minutes byte. -/
def A1M2 : Nat := 7

/-- Modelled from the spec: the header DS3232RTC.h is not among the sources;
alarm mask bit of the hours byte. -/
def A1M3 : Nat := 7

/-- Modelled from the spec: the header DS3232RTC.h is not among the sources;
alarm mask bit of the day/date byte. -/
def A1M4 : Nat := 7

/-- Modelled from the spec: the header DS3232RTC.h is not among the sources;
day/date flag bit of the alarm day/date byte. -/
def DYDT : Nat := 6

/-- Modelled from the spec: the header DS3232RTC.h is not among the sources;
rate-select bit 2 of the control register. -/
def RS2 : Nat := 4

/-- Modelled from the spec: the header DS3232RTC.h is not among the sources;
rate-select bit 1 of the control register. -/
def RS1 : Nat := 3

/-- Modelled from the spec: the header DS3232RTC.h is not among the sources;
interrupt-control bit of the control register. -/
def INTCN : Nat := 2

/-- Modelled from the spec: the header DS3232RTC.h is not among the sources;
alarm 1 interrupt-enable bit of the control register (alarm 2 is the next bit). -/
def A1IE : Nat := 0

/-- Modelled from the spec: the header DS3232RTC.h is not among the sources;
oscillator-stop flag of the status register. -/
def OSF : Nat := 7

/-- Modelled from the spec: the header DS3232RTC.h is not among the sources;
alarm 1 fired flag of the status register (alarm 2 is the next bit). -/
def A1F : Nat := 0

/-- Modelled from the spec: the header DS3232RTC.h is not among the sources;
clock-halt bit of the seconds register, kept for DS1307 compatibility. -/
def DS1307_CH : Nat := 7

/-- Modelled from the spec: the header DS3232RTC.h is not among the sources;
12/24-hour mode bit of the hours register (24-hour mode is 0). -/
def HR1224 : Nat := 6

/-- Modelled from the spec: the header DS3232RTC.h is not among the sources;
century bit of the month register. -/
def CENTURY : Nat := 7

/-- Modelled from the spec: the header DS3232RTC.h is not among the sources;
the sentinel of `SQWAVE_FREQS_t`, following the four rates 0..3. -/
def SQWAVE_NONE : Nat := 4

/-- Modelled from the spec: the Time library header is not among the sources;
number of fields of `tmElements_t`, the seven time registers. -/
def tmNbrFields : Nat := 7

/-- Modelled from the spec: the AVR macro `_BV(bit)`, `1 << bit`, is not among
the sources. -/
def _BV (bit : Nat) : Nat := 1 <<< bit

/-- Modelled from the spec: the Time library macro `tmYearToY2k(Y)` is not among
the sources; it rebases a year counted from the 1970 epoch to one counted from
2000, in `int` arithmetic. -/
def tmYearToY2k (Y : Int) : Int := Y - 30

/-- Modelled from the spec: the Time library macro `y2kYearToTm(Y)` is not among
the sources; it rebases a year counted from 2000 to one counted from the 1970
epoch, in `int` arithmetic. -/
def y2kYearToTm (Y : Int) : Int := Y + 30

/-- Modelled from the spec: the Time library type `tmElements_t` is not among
the sources; the seven calendar fields, each a `uint8_t`. -/
structure tmElements_t where
  Second : Nat
  Minute : Nat
  Hour : Nat
  Wday : Nat
  Day : Nat
  Month : Nat
  Year : Nat
  deriving DecidableEq

/-! ## Machine arithmetic -/

/-- Conversion of an `int` to `uint8_t`. -/
def toU8 (i : Int) : Nat := (i % 256).toNat

/-- The low byte of the `int` value `~m`, for a byte `m`: what `x & ~m` keeps of
a byte `x`. -/
def not8 (m : Nat) : Nat := 255 ^^^ (m % 256)

/-! ## The simulated register store behind the bus -/

/-- One completed bus operation, as recorded by the simulated device. -/
inductive BusOp where
  | endTransmission (bytes : List Nat) (status : Nat)
  | requestFrom (quantity : Nat)
  | read
  deriving DecidableEq

/-- The simulated device and the driver's static data.

* `regs`    the 256 addressable registers of the chip;
* `ptr`     the chip's internal register pointer;
* `txBuf`   bytes queued since the last `i2cBeginTransmission`;
* `rxBuf`   bytes fetched by `i2cRequestFrom` and not yet read;
* `faults`  the status codes the coming `i2cEndTransmission` calls return, in
            order (0 once the list is exhausted): the injected transport errors;
* `log`     the bus operations performed so far, oldest first;
* `errCode` the static member `DS3232RTC::errCode`;
* `uninit`  the indeterminate content of uninitialised local storage: its low
            byte stands for the local byte of the single-byte `readRTC`, its
            bits from 16 up for the bytes of the union of `temperature()` that
            the code does not write. -/
structure Sim where
  regs : Nat → Nat
  ptr : Nat
  txBuf : List Nat
  rxBuf : List Nat
  faults : List Nat
  log : List BusOp
  errCode : Nat
  uninit : Nat

/-- Stores `data` into consecutive registers starting at `addr`; the register
pointer wraps from 0xFF to 0x00. -/
def storeBytes (regs : Nat → Nat) (addr : Nat) : List Nat → Nat → Nat
  | [] => regs
  | v :: vs => storeBytes (Function.update regs (addr % 256) (v % 256)) (addr + 1) vs

/-- The `n` bytes held by consecutive registers starting at `ptr`. -/
def fetchBytes (regs : Nat → Nat) (ptr n : Nat) : List Nat :=
  (List.range n).map (fun i => regs ((ptr + i) % 256) % 256)

/-- Modelled from the spec: the bus transport is an external collaborator and
the macro `i2cBeginTransmission` is not among the sources; it opens a
transaction with an empty transmit buffer. -/
def i2cBeginTransmission (_addr : Nat) (s : Sim) : Sim :=
  { s with txBuf := [] }

/-- Modelled from the spec: the bus transport is an external collaborator and
the macro `i2cWrite` is not among the sources; it queues one byte. -/
def i2cWrite (v : Nat) (s : Sim) : Sim :=
  { s with txBuf := s.txBuf ++ [v % 256] }

/-- Modelled from the spec: the bus transport is an external collaborator and
the macro `i2cEndTransmission` is not among the sources; it sends the queued
bytes and returns the transport status.  With status 0 the chip takes the first
byte as register pointer and stores the following bytes from there on; with a
nonzero status the chip is left as it was. -/
def i2cEndTransmission (s : Sim) : Nat × Sim :=
  let code := s.faults.headD 0 % 256
  let s1 : Sim := { s with faults := s.faults.tail, txBuf := [],
                           log := s.log ++ [BusOp.endTransmission s.txBuf code] }
  if code = 0 then
    match s.txBuf with
    | [] => (0, s1)
    | a :: data =>
      (0, { s1 with regs := storeBytes s.regs a data, ptr := (a + data.length) % 256 })
  else (code, s1)

/-- Modelled from the spec: the bus transport is an external collaborator and
the macro `i2cRequestFrom` is not among the sources; it fetches `n` bytes from
the chip, starting at the register pointer, into the receive buffer. -/
def i2cRequestFrom (_addr : Nat) (n : Nat) (s : Sim) : Sim :=
  { s with rxBuf := fetchBytes s.regs s.ptr n, ptr := (s.ptr + n) % 256,
           log := s.log ++ [BusOp.requestFrom n] }

/-- Modelled from the spec: the bus transport is an external collaborator and
the macro `i2cRead` is not among the sources; it takes the next received byte,
and yields the byte of -1 when none is left. -/
def i2cRead (s : Sim) : Nat × Sim :=
  match s.rxBuf with
  | [] => (255, { s with log := s.log ++ [BusOp.read] })
  | v :: vs => (v % 256, { s with rxBuf := vs, log := s.log ++ [BusOp.read] })

/-! ## The driver -/

/-- Decimal-to-BCD conversion: `n + 6 * (n / 10)` on a `uint8_t`. -/
def dec2bcd (n : Nat) : Nat := (n % 256 + 6 * (n % 256 / 10)) % 256

/-- BCD-to-decimal conversion: `n - 6 * (n >> 4)` on a `uint8_t`. -/
def bcd2dec (n : Nat) : Nat := (n % 256 - 6 * ((n % 256) >>> 4)) % 256

/-- The two-argument `writeRTC(addr, values, nBytes)`, `values` holding `nBytes`
bytes: one addressed multi-byte write; returns the I2C status. -/
def writeRTC (addr : Nat) (values : List Nat) (s : Sim) : Nat × Sim :=
  let s := i2cBeginTransmission RTC_ADDR s
  let s := i2cWrite addr s
  let s := values.foldl (fun s v => i2cWrite v s) s
  i2cEndTransmission s

/-- The single-byte `writeRTC(addr, value)`. -/
def writeRTC1 (addr value : Nat) (s : Sim) : Nat × Sim :=
  writeRTC addr [value % 256] s

/-- The loop `for (i = 0; i < nBytes; i++) values[i] = i2cRead();` of `readRTC`,
with `k` iterations left; the bytes read come back in order. -/
def readLoop : Nat → Sim → List Nat × Sim
  | 0, s => ([], s)
  | k + 1, s =>
    let r := i2cRead s
    let rest := readLoop k r.2
    (r.1 :: rest.1, rest.2)

/-- The multi-byte `readRTC(addr, values, nBytes)`: sets the register pointer
and reads `nBytes` bytes; `values` is left untouched when the pointer write
fails.  Returns the I2C status, the buffer and the device. -/
def readRTC (addr : Nat) (values : List Nat) (nBytes : Nat) (s : Sim) :
    Nat × List Nat × Sim :=
  let s := i2cBeginTransmission RTC_ADDR s
  let s := i2cWrite addr s
  let r := i2cEndTransmission s
  if r.1 ≠ 0 then (r.1, values, r.2)
  else
    let s := i2cRequestFrom RTC_ADDR (nBytes % 256) r.2
    let l := readLoop (nBytes % 256) s
    (0, l.1, l.2)

/-- The single-byte `readRTC(addr)`: the local `b` is uninitialised and is
returned as it is when the read fails. -/
def readRTC1 (addr : Nat) (s : Sim) : Nat × Sim :=
  let r := readRTC addr [s.uninit % 256] 1 s
  (r.2.1.headD 0, r.2.2)

/-- The method `read(tm)`: reads the seven time registers into `tm`.  Returns
the I2C status, the caller's structure and the device. -/
def read (tm : tmElements_t) (s : Sim) : Nat × tmElements_t × Sim :=
  let s := i2cBeginTransmission RTC_ADDR s
  let s := i2cWrite RTC_SECONDS s
  let r := i2cEndTransmission s
  if r.1 ≠ 0 then (r.1, tm, { r.2 with errCode := r.1 })
  else
    let s := i2cRequestFrom RTC_ADDR tmNbrFields r.2
    let r0 := i2cRead s
    let r1 := i2cRead r0.2
    let r2 := i2cRead r1.2
    let r3 := i2cRead r2.2
    let r4 := i2cRead r3.2
    let r5 := i2cRead r4.2
    let r6 := i2cRead r5.2
    (0,
     { Second := bcd2dec (r0.1 &&& not8 (_BV DS1307_CH)),
       Minute := bcd2dec r1.1,
       Hour := bcd2dec (r2.1 &&& not8 (_BV HR1224)),
       Wday := r3.1,
       Day := bcd2dec r4.1,
       Month := bcd2dec (r5.1 &&& not8 (_BV CENTURY)),
       Year := toU8 (y2kYearToTm (bcd2dec r6.1)) },
     r6.2)

/-- The method `write(tm)`: one addressed 7-byte write of the time registers,
then a read-modify-write of the status register clearing OSF.  Returns `ret`,
the status of the 7-byte write. -/
def write (tm : tmElements_t) (s : Sim) : Nat × Sim :=
  let s := i2cBeginTransmission RTC_ADDR s
  let s := i2cWrite RTC_SECONDS s
  let s := i2cWrite (dec2bcd tm.Second) s
  let s := i2cWrite (dec2bcd tm.Minute) s
  let s := i2cWrite (dec2bcd tm.Hour) s
  let s := i2cWrite tm.Wday s
  let s := i2cWrite (dec2bcd tm.Day) s
  let s := i2cWrite (dec2bcd tm.Month) s
  let s := i2cWrite (dec2bcd (toU8 (tmYearToY2k tm.Year))) s
  let r := i2cEndTransmission s
  let ret := r.1
  let rd := readRTC1 RTC_STATUS r.2
  let w := writeRTC1 RTC_STATUS (rd.1 &&& not8 (_BV OSF)) rd.2
  (ret, w.2)

/-- The five-argument `setAlarm(alarmType, seconds, minutes, hours, daydate)`:
encodes the fields, ORs the mask bits in and writes the alarm registers one byte
at a time, four from `ALM1_SECONDS` for alarm 1, three from `ALM2_MINUTES` for
alarm 2. -/
def setAlarm (alarmType seconds minutes hours daydate : Nat) (s : Sim) : Sim :=
  let seconds := dec2bcd seconds
  let minutes := dec2bcd minutes
  let hours := dec2bcd hours
  let daydate := dec2bcd daydate
  let seconds := if alarmType &&& 0x01 ≠ 0 then (seconds ||| _BV A1M1) % 256 else seconds
  let minutes := if alarmType &&& 0x02 ≠ 0 then (minutes ||| _BV A1M2) % 256 else minutes
  let hours := if alarmType &&& 0x04 ≠ 0 then (hours ||| _BV A1M3) % 256 else hours
  let daydate := if alarmType &&& 0x10 ≠ 0 then (daydate ||| _BV DYDT) % 256 else daydate
  let daydate := if alarmType &&& 0x08 ≠ 0 then (daydate ||| _BV A1M4) % 256 else daydate
  if alarmType &&& 0x80 = 0 then
    let addr := ALM1_SECONDS
    let s := (writeRTC1 addr seconds s).2
    let addr := (addr + 1) % 256
    let s := (writeRTC1 addr minutes s).2
    let addr := (addr + 1) % 256
    let s := (writeRTC1 addr hours s).2
    let addr := (addr + 1) % 256
    (writeRTC1 addr daydate s).2
  else
    let addr := ALM2_MINUTES
    let s := (writeRTC1 addr minutes s).2
    let addr := (addr + 1) % 256
    let s := (writeRTC1 addr hours s).2
    let addr := (addr + 1) % 256
    (writeRTC1 addr daydate s).2

/-- The four-argument `setAlarm(alarmType, minutes, hours, daydate)`. -/
def setAlarm4 (alarmType minutes hours daydate : Nat) (s : Sim) : Sim :=
  setAlarm alarmType 0 minutes hours daydate s

/-- The method `alarmInterrupt(alarmNumber, interruptEnabled)`: read-modify-write
of the control register.  The shift count `alarmNumber - 1` is taken as it is
for `alarmNumber` at least 1, the values the method is defined for. -/
def alarmInterrupt (alarmNumber : Nat) (interruptEnabled : Bool) (s : Sim) : Sim :=
  let rd := readRTC1 RTC_CONTROL s
  let controlReg := rd.1
  let mask := (_BV A1IE <<< (alarmNumber - 1)) % 256
  let controlReg :=
    if interruptEnabled then (controlReg ||| mask) % 256 else controlReg &&& not8 mask
  (writeRTC1 RTC_CONTROL controlReg rd.2).2

/-- The method `alarm(alarmNumber)`: tests the alarm flag in the status register
and resets it when it is set.  The shift count `alarmNumber - 1` is taken as it
is for `alarmNumber` at least 1, the values the method is defined for. -/
def alarm (alarmNumber : Nat) (s : Sim) : Bool × Sim :=
  let rd := readRTC1 RTC_STATUS s
  let statusReg := rd.1
  let mask := (_BV A1F <<< (alarmNumber - 1)) % 256
  if statusReg &&& mask ≠ 0 then
    let statusReg := statusReg &&& not8 mask
    (true, (writeRTC1 RTC_STATUS statusReg rd.2).2)
  else
    (false, rd.2)

/-- The method `squareWave(freq)`: read-modify-write of the control register. -/
def squareWave (freq : Nat) (s : Sim) : Sim :=
  let rd := readRTC1 RTC_CONTROL s
  let controlReg := rd.1
  let controlReg :=
    if freq ≥ SQWAVE_NONE then (controlReg ||| _BV INTCN) % 256
    else ((controlReg &&& 0xE3) ||| (freq <<< RS1)) % 256
  (writeRTC1 RTC_CONTROL controlReg rd.2).2

/-- The method `oscStopped(clearOSF)`: returns the oscillator-stop flag and
clears it when it is set and the caller asks for it. -/
def oscStopped (clearOSF : Bool) (s : Sim) : Bool × Sim :=
  let rd := readRTC1 RTC_STATUS s
  let ret : Bool := decide (rd.1 &&& _BV OSF ≠ 0)
  if ret && clearOSF then
    (ret, (writeRTC1 RTC_STATUS (rd.1 &&& not8 (_BV OSF)) rd.2).2)
  else
    (ret, rd.2)

/-- The member `i` of the union `int16_byte { int i; byte b[2]; }` of
`temperature()` once `b[0]` and `b[1]` are stored, on a little-endian target
whose `int` has `intBits` bits (16 on AVR, 32 on the other targets the library
supports).  The code writes the two low bytes only; the bytes of `i` above them
keep the indeterminate content `junk` of the uninitialised union.  The result
is the two-complement value of the `intBits` bits. -/
def intOfUnion (intBits junk b0 b1 : Nat) : Int :=
  let u := (junk / 65536 * 65536 + (b1 % 256) * 256 + b0 % 256) % 2 ^ intBits
  if u < 2 ^ (intBits - 1) then (u : Int) else (u : Int) - ((2 ^ intBits : Nat) : Int)

/-- The method `temperature()` on a target whose `int` has `intBits` bits: the
low byte and the high byte of the temperature go to `b[0]` and `b[1]` of the
union, and its `int` member is divided by 64 with the truncating division of
C. -/
def temperature (intBits : Nat) (s : Sim) : Int × Sim :=
  let r0 := readRTC1 RTC_TEMP_LSB s
  let r1 := readRTC1 RTC_TEMP_MSB r0.2
  ((intOfUnion intBits s.uninit r0.1 r1.1).tdiv 64, r1.2)

/-! ## Predicates of the statements -/

/-- A simulated device holding the registers `regs`, with nothing queued, no
transport error injected and an empty log. -/
def Sim.ofRegs (regs : Nat → Nat) : Sim :=
  { regs := regs, ptr := 0, txBuf := [], rxBuf := [], faults := [], log := [],
    errCode := 0, uninit := 0 }

/-- A bus operation that changes registers: a transmission that was acknowledged
and carried data after the register address. -/
def BusOp.isRegWrite : BusOp → Bool
  | .endTransmission bytes status => decide (status = 0) && decide (2 ≤ bytes.length)
  | _ => false

/-- The calendar fields lie in the ranges of the calendar model. -/
def tmElements_t.valid (t : tmElements_t) : Prop :=
  t.Second ≤ 59 ∧ t.Minute ≤ 59 ∧ t.Hour ≤ 23 ∧ 1 ≤ t.Wday ∧ t.Wday ≤ 7 ∧
  1 ≤ t.Day ∧ t.Day ≤ 31 ∧ 1 ≤ t.Month ∧ t.Month ≤ 12 ∧ t.Year ≤ 255

instance (t : tmElements_t) : Decidable t.valid := by
  unfold tmElements_t.valid; infer_instance

/-- The state in which `write` leaves the device after its 7-byte transmission. -/
def afterTimeWrite (t : tmElements_t) (s : Sim) : Sim :=
  (i2cEndTransmission
    (i2cWrite (dec2bcd (toU8 (tmYearToY2k t.Year)))
      (i2cWrite (dec2bcd t.Month)
        (i2cWrite (dec2bcd t.Day)
          (i2cWrite t.Wday
            (i2cWrite (dec2bcd t.Hour)
              (i2cWrite (dec2bcd t.Minute)
                (i2cWrite (dec2bcd t.Second)
                  (i2cWrite RTC_SECONDS (i2cBeginTransmission RTC_ADDR s)))))))))).2

/-- The four bytes `setAlarm` computes before it writes any of them: the encoded
seconds, minutes, hours and day/date with the mask bits ORed in. -/
def alarmBytes (alarmType seconds minutes hours daydate : Nat) : Nat × Nat × Nat × Nat :=
  let seconds := dec2bcd seconds
  let minutes := dec2bcd minutes
  let hours := dec2bcd hours
  let daydate := dec2bcd daydate
  let seconds := if alarmType &&& 0x01 ≠ 0 then (seconds ||| _BV A1M1) % 256 else seconds
  let minutes := if alarmType &&& 0x02 ≠ 0 then (minutes ||| _BV A1M2) % 256 else minutes
  let hours := if alarmType &&& 0x04 ≠ 0 then (hours ||| _BV A1M3) % 256 else hours
  let daydate := if alarmType &&& 0x10 ≠ 0 then (daydate ||| _BV DYDT) % 256 else daydate
  let daydate := if alarmType &&& 0x08 ≠ 0 then (daydate ||| _BV A1M4) % 256 else daydate
  (seconds, minutes, hours, daydate)

/-! ## Arithmetic of the BCD codec -/

set_option maxRecDepth 100000 in
theorem bcd_roundtrip_lt_160 : ∀ n, n < 160 → bcd2dec (dec2bcd n) = n := by decide

theorem dec2bcd_packed : ∀ n, n < 100 →
    dec2bcd n = ((n / 10) <<< 4) ||| (n % 10) ∧ dec2bcd n >>> 4 = n / 10 ∧
      dec2bcd n &&& 0x0F = n % 10 := by decide

theorem dec2bcd_lt (n : Nat) : dec2bcd n < 256 := Nat.mod_lt _ (by decide)

theorem bcd_second : ∀ n, n < 60 → bcd2dec (dec2bcd n &&& 127) = n := by decide

theorem bcd_hour : ∀ n, n < 24 → bcd2dec (dec2bcd n &&& 191) = n := by decide

set_option maxRecDepth 100000 in
theorem bcd_year : ∀ y : Nat, y < 190 → 30 ≤ y →
    toU8 (y2kYearToTm (bcd2dec (dec2bcd (toU8 (tmYearToY2k y))))) = y := by decide

/-! ## The bus transactions of the driver on the simulated store -/

theorem range7 : List.range 7 = [0, 1, 2, 3, 4, 5, 6] := by decide

/-- The single-byte `writeRTC` is one transmission of the address and the byte;
the register is stored when the transmission is acknowledged. -/
theorem writeRTC1_eq (a v : Nat) (s : Sim) :
    writeRTC1 a v s =
      (s.faults.headD 0 % 256,
       { s with
         regs := if s.faults.headD 0 % 256 = 0
                 then Function.update s.regs (a % 256) (v % 256) else s.regs,
         ptr := if s.faults.headD 0 % 256 = 0 then (a % 256 + 1) % 256 else s.ptr,
         txBuf := [],
         faults := s.faults.tail,
         log := s.log ++
           [BusOp.endTransmission [a % 256, v % 256] (s.faults.headD 0 % 256)] }) := by
  simp only [writeRTC1, writeRTC, i2cBeginTransmission, i2cWrite, i2cEndTransmission,
    List.foldl, List.nil_append, List.cons_append, Nat.mod_mod]
  split <;> simp_all [storeBytes]

/-- Without transport error the single-byte `readRTC` returns the register. -/
theorem readRTC1_ok (a : Nat) (s : Sim) (hf : s.faults = []) :
    readRTC1 a s =
      (s.regs (a % 256) % 256,
       { s with
         ptr := (a % 256 + 1) % 256, txBuf := [], rxBuf := [],
         log := s.log ++
           [BusOp.endTransmission [a % 256] 0, BusOp.requestFrom 1, BusOp.read] }) := by
  simp [readRTC1, readRTC, readLoop, i2cBeginTransmission, i2cWrite, i2cEndTransmission,
    i2cRequestFrom, i2cRead, hf, storeBytes, fetchBytes, List.range_succ]

/-- Without transport error `read` succeeds and decodes registers 0x00..0x06. -/
theorem read_ok (tm : tmElements_t) (s : Sim) (hf : s.faults = []) :
    (read tm s).1 = 0 ∧
    (read tm s).2.1 =
      { Second := bcd2dec ((s.regs 0 % 256) &&& 127),
        Minute := bcd2dec (s.regs 1 % 256),
        Hour := bcd2dec ((s.regs 2 % 256) &&& 191),
        Wday := s.regs 3 % 256,
        Day := bcd2dec (s.regs 4 % 256),
        Month := bcd2dec ((s.regs 5 % 256) &&& 127),
        Year := toU8 (y2kYearToTm (bcd2dec (s.regs 6 % 256))) } := by
  simp [read, i2cBeginTransmission, i2cWrite, i2cEndTransmission, i2cRequestFrom, i2cRead,
    hf, storeBytes, fetchBytes, range7, RTC_SECONDS, tmNbrFields, RTC_ADDR, not8, _BV,
    DS1307_CH, HR1224, CENTURY]

theorem afterTimeWrite_ok (t : tmElements_t) (s : Sim) (hf : s.faults = []) :
    (afterTimeWrite t s).faults = [] ∧
    (afterTimeWrite t s).regs =
      storeBytes s.regs 0 [dec2bcd t.Second, dec2bcd t.Minute, dec2bcd t.Hour, t.Wday % 256,
        dec2bcd t.Day, dec2bcd t.Month, dec2bcd (toU8 (tmYearToY2k t.Year))] := by
  simp [afterTimeWrite, i2cBeginTransmission, i2cWrite, i2cEndTransmission, hf, RTC_SECONDS,
    Nat.mod_eq_of_lt (dec2bcd_lt _)]

/-- Without transport error `write` succeeds, stores the seven encoded bytes and
rewrites the status register with OSF cleared. -/
theorem write_ok (t : tmElements_t) (s : Sim) (hf : s.faults = []) :
    (write t s).1 = 0 ∧ (write t s).2.faults = [] ∧
    (write t s).2.regs =
      Function.update
        (storeBytes s.regs 0 [dec2bcd t.Second, dec2bcd t.Minute, dec2bcd t.Hour,
          t.Wday % 256, dec2bcd t.Day, dec2bcd t.Month, dec2bcd (toU8 (tmYearToY2k t.Year))])
        15 ((s.regs 15 % 256) &&& 127) := by
  obtain ⟨h1, h2⟩ := afterTimeWrite_ok t s hf
  have hw : write t s =
      ((i2cEndTransmission
        (i2cWrite (dec2bcd (toU8 (tmYearToY2k t.Year)))
          (i2cWrite (dec2bcd t.Month)
            (i2cWrite (dec2bcd t.Day)
              (i2cWrite t.Wday
                (i2cWrite (dec2bcd t.Hour)
                  (i2cWrite (dec2bcd t.Minute)
                    (i2cWrite (dec2bcd t.Second)
                      (i2cWrite RTC_SECONDS (i2cBeginTransmission RTC_ADDR s)))))))))).1,
       (writeRTC1 RTC_STATUS ((readRTC1 RTC_STATUS (afterTimeWrite t s)).1 &&& not8 (_BV OSF))
          (readRTC1 RTC_STATUS (afterTimeWrite t s)).2).2) := rfl
  rw [hw, readRTC1_ok _ _ h1, writeRTC1_eq]
  refine ⟨?_, ?_, ?_⟩
  · simp [i2cBeginTransmission, i2cWrite, i2cEndTransmission, hf]
  · simp [h1]
  · have hlt : ∀ x, x % 256 &&& 127 < 256 := fun x =>
      lt_of_le_of_lt Nat.and_le_right (by decide)
    simp [h1, h2, RTC_STATUS, not8, _BV, OSF, storeBytes, Nat.mod_eq_of_lt (hlt _)]

theorem i2cEndTransmission_fst (s : Sim) :
    (i2cEndTransmission s).1 = s.faults.headD 0 % 256 := by
  simp only [i2cEndTransmission]
  split
  · split <;> simp_all
  · rfl

theorem i2cEndTransmission_log (s : Sim) :
    (i2cEndTransmission s).2.log =
      s.log ++ [BusOp.endTransmission s.txBuf (s.faults.headD 0 % 256)] := by
  simp only [i2cEndTransmission]
  split
  · split <;> simp_all
  · rfl

theorem readLoop_log (k : Nat) (s : Sim) : ∃ ops, (readLoop k s).2.log = s.log ++ ops := by
  induction k generalizing s with
  | zero => exact ⟨[], by simp [readLoop]⟩
  | succ k ih =>
    obtain ⟨ops, h⟩ := ih (i2cRead s).2
    refine ⟨BusOp.read :: ops, ?_⟩
    simp only [readLoop, h]
    unfold i2cRead
    split <;> simp

/-- The single-byte `readRTC` only appends to the log of bus operations. -/
theorem readRTC1_log (a : Nat) (s : Sim) : ∃ ops, (readRTC1 a s).2.log = s.log ++ ops := by
  simp only [readRTC1, readRTC]
  split
  · exact ⟨_, i2cEndTransmission_log _⟩
  · obtain ⟨ops, h⟩ := readLoop_log (1 % 256)
      (i2cRequestFrom RTC_ADDR (1 % 256)
        (i2cEndTransmission (i2cWrite a (i2cBeginTransmission RTC_ADDR s))).2)
    rw [h]
    simp only [i2cRequestFrom, i2cEndTransmission_log, List.append_assoc]
    exact ⟨_, rfl⟩

theorem and_127_testBit (x i : Nat) (hx : x < 256) (hi : i ≠ 7) :
    (x &&& 127).testBit i = x.testBit i := by
  rw [Nat.testBit_and]
  rcases Nat.lt_or_ge i 7 with h | h
  · have : Nat.testBit 127 i = true := by interval_cases i <;> decide
    simp [this]
  · have h8 : 8 ≤ i := by omega
    have : x < 2 ^ i := lt_of_lt_of_le hx (by
      calc 256 = 2 ^ 8 := by norm_num
        _ ≤ 2 ^ i := Nat.pow_le_pow_right (by norm_num) h8)
    simp [Nat.testBit_lt_two_pow this]

/-! ## Time codec -/

/-- C2: for every n in 0..99, `bcd2dec (dec2bcd n) = n` in 8-bit unsigned
arithmetic. -/
theorem bcd2dec_dec2bcd (n : Nat) (h : n ≤ 99) : bcd2dec (dec2bcd n) = n :=
  bcd_roundtrip_lt_160 n (by omega)

theorem bcd2dec_dec2bcd_witness : 59 ≤ 99 ∧ bcd2dec (dec2bcd 59) = 59 :=
  ⟨by decide, bcd2dec_dec2bcd 59 (by decide)⟩

/-- C3: for every n in 0..99, `dec2bcd n` is the packed-BCD byte of n: it equals
`((n / 10) << 4) | (n % 10)`, its high nibble is the tens digit and its low
nibble the ones digit. -/
theorem dec2bcd_is_packed_bcd (n : Nat) (h : n ≤ 99) :
    dec2bcd n = ((n / 10) <<< 4) ||| (n % 10) ∧
    dec2bcd n >>> 4 = n / 10 ∧ dec2bcd n &&& 0x0F = n % 10 :=
  dec2bcd_packed n (by omega)

theorem dec2bcd_is_packed_bcd_witness :
    47 ≤ 99 ∧ dec2bcd 47 = ((47 / 10) <<< 4) ||| (47 % 10) ∧
    dec2bcd 47 >>> 4 = 47 / 10 ∧ dec2bcd 47 &&& 0x0F = 47 % 10 :=
  ⟨by decide, dec2bcd_is_packed_bcd 47 (by decide)⟩

/-- C1, as stated, fails: the valid time with year offset 0 (1970), written to a
store of zeros and read back without transport error, comes back with year
offset 96. -/
theorem write_read_year_counterexample :
    (⟨0, 0, 0, 1, 1, 1, 0⟩ : tmElements_t).valid ∧
    (read ⟨0, 0, 0, 0, 0, 0, 0⟩
        (write ⟨0, 0, 0, 1, 1, 1, 0⟩ (Sim.ofRegs (fun _ => 0))).2).1 = 0 ∧
    (read ⟨0, 0, 0, 0, 0, 0, 0⟩
        (write ⟨0, 0, 0, 1, 1, 1, 0⟩ (Sim.ofRegs (fun _ => 0))).2).2.1
      = ⟨0, 0, 0, 1, 1, 1, 96⟩ ∧
    (read ⟨0, 0, 0, 0, 0, 0, 0⟩
        (write ⟨0, 0, 0, 1, 1, 1, 0⟩ (Sim.ofRegs (fun _ => 0))).2).2.1
      ≠ ⟨0, 0, 0, 1, 1, 1, 0⟩ := by
  decide

/-- C1, amended: for every valid time t whose year offset lies in 30..189 (so
that `tmYearToY2k` of it lies in 0..159), every device state without injected
transport error, whatever its registers hold (the 12/24 bit of the hours
register included), and every prior content of the caller's structure,
`write t` returns 0 and the following `read` returns 0 and yields t. -/
theorem write_read_roundtrip (t tm : tmElements_t) (s : Sim) (hf : s.faults = [])
    (hv : t.valid) (hy : 30 ≤ t.Year ∧ t.Year ≤ 189) :
    (write t s).1 = 0 ∧ (read tm (write t s).2).1 = 0 ∧
    (read tm (write t s).2).2.1 = t := by
  obtain ⟨hw1, hw2, hw3⟩ := write_ok t s hf
  obtain ⟨hr1, hr2⟩ := read_ok tm (write t s).2 hw2
  obtain ⟨hS, hM, hH, _, hW, _, hD, _, hMo, _⟩ := hv
  refine ⟨hw1, hr1, ?_⟩
  rw [hr2, hw3]
  have e1 := bcd_second t.Second (by omega)
  have e2 := bcd_roundtrip_lt_160 t.Minute (by omega)
  have e3 := bcd_hour t.Hour (by omega)
  have e4 : t.Wday % 256 = t.Wday := Nat.mod_eq_of_lt (by omega)
  have e5 := bcd_roundtrip_lt_160 t.Day (by omega)
  have e6 := bcd_second t.Month (by omega)
  have e7 := bcd_year t.Year (by omega) hy.1
  cases t
  simp_all [storeBytes, Nat.mod_eq_of_lt (dec2bcd_lt _)]

theorem write_read_roundtrip_witness :
    (Sim.ofRegs (fun a => if a = 2 then 0x52 else 0)).faults = [] ∧
    (⟨59, 58, 23, 7, 31, 12, 56⟩ : tmElements_t).valid ∧
    (write ⟨59, 58, 23, 7, 31, 12, 56⟩
        (Sim.ofRegs (fun a => if a = 2 then 0x52 else 0))).1 = 0 ∧
    (read ⟨0, 0, 0, 0, 0, 0, 0⟩
        (write ⟨59, 58, 23, 7, 31, 12, 56⟩
          (Sim.ofRegs (fun a => if a = 2 then 0x52 else 0))).2).1 = 0 ∧
    (read ⟨0, 0, 0, 0, 0, 0, 0⟩
        (write ⟨59, 58, 23, 7, 31, 12, 56⟩
          (Sim.ofRegs (fun a => if a = 2 then 0x52 else 0))).2).2.1
      = ⟨59, 58, 23, 7, 31, 12, 56⟩ :=
  ⟨rfl, by decide,
   write_read_roundtrip ⟨59, 58, 23, 7, 31, 12, 56⟩ ⟨0, 0, 0, 0, 0, 0, 0⟩
    (Sim.ofRegs (fun a => if a = 2 then 0x52 else 0)) rfl (by decide) (by decide)⟩

/-- C4, as stated, fails: the 7-byte write and the pointer write of the status
read are acknowledged, the status-register write that clears OSF fails with
code 4 (it is the last bus operation), and `write` returns 0, not 4. -/
theorem write_status_counterexample :
    (write ⟨0, 0, 0, 1, 1, 1, 30⟩
        { Sim.ofRegs (fun _ => 0) with faults := [0, 0, 4] }).1 = 0 ∧
    (write ⟨0, 0, 0, 1, 1, 1, 30⟩
        { Sim.ofRegs (fun _ => 0) with faults := [0, 0, 4] }).2.log.getLast?
      = some (BusOp.endTransmission [15, 0] 4) := by
  decide

/-- C4, amended: `write` returns the status code of its first bus transmission,
the primary 7-byte time write (the register address followed by the seven
encoded bytes); the codes of the status-register read and write that follow are
discarded. -/
theorem write_returns_primary_status (t : tmElements_t) (s : Sim) :
    (write t s).1 = s.faults.headD 0 % 256 ∧
    ∃ ops, (write t s).2.log =
      s.log ++ BusOp.endTransmission
        [RTC_SECONDS, dec2bcd t.Second, dec2bcd t.Minute, dec2bcd t.Hour, t.Wday % 256,
          dec2bcd t.Day, dec2bcd t.Month, dec2bcd (toU8 (tmYearToY2k t.Year))]
        (write t s).1 :: ops := by
  have h1 : (write t s).1 = s.faults.headD 0 % 256 := by
    simp only [write]
    rw [i2cEndTransmission_fst]
    simp [i2cWrite, i2cBeginTransmission]
  refine ⟨h1, ?_⟩
  have hw : (write t s).2 =
      (writeRTC1 RTC_STATUS ((readRTC1 RTC_STATUS (afterTimeWrite t s)).1 &&& not8 (_BV OSF))
          (readRTC1 RTC_STATUS (afterTimeWrite t s)).2).2 := rfl
  obtain ⟨ops, ho⟩ := readRTC1_log RTC_STATUS (afterTimeWrite t s)
  have ha : (afterTimeWrite t s).log =
      s.log ++ [BusOp.endTransmission
        [RTC_SECONDS, dec2bcd t.Second, dec2bcd t.Minute, dec2bcd t.Hour, t.Wday % 256,
          dec2bcd t.Day, dec2bcd t.Month, dec2bcd (toU8 (tmYearToY2k t.Year))]
        (s.faults.headD 0 % 256)] := by
    simp only [afterTimeWrite]
    rw [i2cEndTransmission_log]
    simp [i2cWrite, i2cBeginTransmission, RTC_SECONDS, Nat.mod_eq_of_lt (dec2bcd_lt _)]
  rw [hw, writeRTC1_eq, h1]
  simp only [ho, ha, List.append_assoc, List.singleton_append, List.cons_append]
  exact ⟨_, rfl⟩


/-- C5: for every time t, every device state without injected transport error
and with status byte s, after `write t` the status register is s with OSF (bit
7) cleared and every other bit as before; a second `write t` leaves it at that
value. -/
theorem write_clears_OSF (t : tmElements_t) (s : Sim) (hf : s.faults = [])
    (hs : s.regs RTC_STATUS < 256) :
    (write t s).2.regs RTC_STATUS = s.regs RTC_STATUS &&& 0x7F ∧
    ((write t s).2.regs RTC_STATUS).testBit OSF = false ∧
    (∀ i, i ≠ OSF →
      ((write t s).2.regs RTC_STATUS).testBit i = (s.regs RTC_STATUS).testBit i) ∧
    (write t (write t s).2).2.regs RTC_STATUS = (write t s).2.regs RTC_STATUS := by
  obtain ⟨_, hw2, hw3⟩ := write_ok t s hf
  obtain ⟨_, _, hx3⟩ := write_ok t (write t s).2 hw2
  have hlt : s.regs 15 &&& 127 < 256 := lt_of_le_of_lt Nat.and_le_right (by decide)
  have hs15 : s.regs 15 < 256 := hs
  have e1 : (write t s).2.regs RTC_STATUS = s.regs RTC_STATUS &&& 0x7F := by
    rw [hw3]; simp [RTC_STATUS, Nat.mod_eq_of_lt hs15]
  have e2 : (write t (write t s).2).2.regs RTC_STATUS = (write t s).2.regs RTC_STATUS := by
    rw [hx3]
    simp only [RTC_STATUS, Function.update_same]
    rw [hw3]
    simp only [Function.update_same, Nat.mod_eq_of_lt hs15, Nat.mod_eq_of_lt hlt,
      Nat.and_assoc, Nat.and_self]
  refine ⟨e1, ?_, ?_, e2⟩
  · rw [e1, Nat.testBit_and]
    have : Nat.testBit 0x7F OSF = false := by decide
    simp [this]
  · intro i hi
    rw [e1]
    exact and_127_testBit _ i hs hi


theorem write_clears_OSF_witness :
    (Sim.ofRegs (fun a => if a = 15 then 0x83 else 0)).faults = [] ∧
    (Sim.ofRegs (fun a => if a = 15 then 0x83 else 0)).regs RTC_STATUS < 256 ∧
    (write ⟨59, 58, 23, 7, 31, 12, 56⟩
        (Sim.ofRegs (fun a => if a = 15 then 0x83 else 0))).2.regs RTC_STATUS = 0x03 :=
  ⟨rfl, by decide,
   (write_clears_OSF ⟨59, 58, 23, 7, 31, 12, 56⟩
      (Sim.ofRegs (fun a => if a = 15 then 0x83 else 0)) rfl (by decide)).1⟩

/-- A single-byte `writeRTC` leaves every other register as it was. -/
theorem writeRTC1_regs_of_ne (a v : Nat) (s : Sim) (x : Nat) (h : x ≠ a % 256) :
    (writeRTC1 a v s).2.regs x = s.regs x := by
  rw [writeRTC1_eq]
  show (if s.faults.headD 0 % 256 = 0 then Function.update s.regs (a % 256) (v % 256)
        else s.regs) x = s.regs x
  split_ifs
  · exact Function.update_noteq h _ _
  · rfl

/-- A single-byte `writeRTC` appends one transmission to the log. -/
theorem writeRTC1_log (a v : Nat) (s : Sim) :
    (writeRTC1 a v s).2.log =
      s.log ++ [BusOp.endTransmission [a % 256, v % 256] (writeRTC1 a v s).1] := by
  rw [writeRTC1_eq]

/-- Without transport error a single-byte `writeRTC` stores the byte. -/
theorem writeRTC1_ok (a v : Nat) (s : Sim) (hf : s.faults = []) :
    (writeRTC1 a v s).1 = 0 ∧ (writeRTC1 a v s).2.faults = [] ∧
    (writeRTC1 a v s).2.regs = Function.update s.regs (a % 256) (v % 256) := by
  rw [writeRTC1_eq]
  simp [hf]

/-! ## Alarm codec -/

/-- C6: whatever the alarm type, the field values, the registers and the
injected transport errors, `setAlarm` with an alarm-1 type (bit 0x80 clear)
performs four single-byte writes, to ALM1_SECONDS..ALM1_SECONDS+3, and leaves
every register outside that range unchanged, those of alarm 2 included;
with an alarm-2 type (bit 0x80 set) it performs three single-byte writes, to
ALM2_MINUTES..ALM2_MINUTES+2, and leaves every register outside that range
unchanged, those of alarm 1 included. -/
theorem setAlarm_frame (alarmType seconds minutes hours daydate : Nat) (s : Sim) :
    (alarmType &&& 0x80 = 0 →
      (∀ a, ¬ (ALM1_SECONDS ≤ a ∧ a ≤ ALM1_SECONDS + 3) →
        (setAlarm alarmType seconds minutes hours daydate s).regs a = s.regs a) ∧
      (∀ a, ALM2_MINUTES ≤ a → a ≤ ALM2_MINUTES + 2 →
        (setAlarm alarmType seconds minutes hours daydate s).regs a = s.regs a) ∧
      ∃ b0 b1 b2 b3 c0 c1 c2 c3,
        (setAlarm alarmType seconds minutes hours daydate s).log =
          s.log ++ [BusOp.endTransmission [ALM1_SECONDS, b0] c0,
                    BusOp.endTransmission [ALM1_SECONDS + 1, b1] c1,
                    BusOp.endTransmission [ALM1_SECONDS + 2, b2] c2,
                    BusOp.endTransmission [ALM1_SECONDS + 3, b3] c3]) ∧
    (alarmType &&& 0x80 ≠ 0 →
      (∀ a, ¬ (ALM2_MINUTES ≤ a ∧ a ≤ ALM2_MINUTES + 2) →
        (setAlarm alarmType seconds minutes hours daydate s).regs a = s.regs a) ∧
      (∀ a, ALM1_SECONDS ≤ a → a ≤ ALM1_SECONDS + 3 →
        (setAlarm alarmType seconds minutes hours daydate s).regs a = s.regs a) ∧
      ∃ b1 b2 b3 c1 c2 c3,
        (setAlarm alarmType seconds minutes hours daydate s).log =
          s.log ++ [BusOp.endTransmission [ALM2_MINUTES, b1] c1,
                    BusOp.endTransmission [ALM2_MINUTES + 1, b2] c2,
                    BusOp.endTransmission [ALM2_MINUTES + 2, b3] c3]) := by
  constructor
  · intro h
    have hframe : ∀ a, ¬ (ALM1_SECONDS ≤ a ∧ a ≤ ALM1_SECONDS + 3) →
        (setAlarm alarmType seconds minutes hours daydate s).regs a = s.regs a := by
      intro a ha
      simp only [ALM1_SECONDS] at ha
      simp only [setAlarm, if_pos h, ALM1_SECONDS]
      rw [writeRTC1_regs_of_ne _ _ _ _ (by omega), writeRTC1_regs_of_ne _ _ _ _ (by omega),
        writeRTC1_regs_of_ne _ _ _ _ (by omega), writeRTC1_regs_of_ne _ _ _ _ (by omega)]
    refine ⟨hframe, ?_, ?_⟩
    · intro a h1 h2
      apply hframe
      simp only [ALM1_SECONDS, ALM2_MINUTES] at *
      omega
    · simp only [setAlarm, if_pos h, writeRTC1_log, ALM1_SECONDS, List.append_assoc,
        List.singleton_append, List.cons_append, List.nil_append]
      exact ⟨_, _, _, _, _, _, _, _, rfl⟩
  · intro h
    have hframe : ∀ a, ¬ (ALM2_MINUTES ≤ a ∧ a ≤ ALM2_MINUTES + 2) →
        (setAlarm alarmType seconds minutes hours daydate s).regs a = s.regs a := by
      intro a ha
      simp only [ALM2_MINUTES] at ha
      simp only [setAlarm, if_neg h, ALM2_MINUTES]
      rw [writeRTC1_regs_of_ne _ _ _ _ (by omega), writeRTC1_regs_of_ne _ _ _ _ (by omega),
        writeRTC1_regs_of_ne _ _ _ _ (by omega)]
    refine ⟨hframe, ?_, ?_⟩
    · intro a h1 h2
      apply hframe
      simp only [ALM1_SECONDS, ALM2_MINUTES] at *
      omega
    · simp only [setAlarm, if_neg h, writeRTC1_log, ALM2_MINUTES, List.append_assoc,
        List.singleton_append, List.cons_append, List.nil_append]
      exact ⟨_, _, _, _, _, _, rfl⟩

theorem setAlarm_frame_witness :
    (0x0F &&& 0x80 = 0 ∧
      (setAlarm 0x0F 30 45 12 7 (Sim.ofRegs (fun a => a))).regs ALM2_MINUTES = 0x0B) ∧
    (0x8E &&& 0x80 ≠ 0 ∧
      (setAlarm 0x8E 30 45 12 7 (Sim.ofRegs (fun a => a))).regs ALM1_SECONDS = 0x07) :=
  ⟨⟨by decide,
    ((setAlarm_frame 0x0F 30 45 12 7 (Sim.ofRegs (fun a => a))).1 (by decide)).2.1
      ALM2_MINUTES (by decide) (by decide)⟩,
   ⟨by decide,
    ((setAlarm_frame 0x8E 30 45 12 7 (Sim.ofRegs (fun a => a))).2 (by decide)).2.1
      ALM1_SECONDS (by decide) (by decide)⟩⟩

theorem or_mask_lt (x m : Nat) (hx : x < 256) (hm : m < 256) : (x ||| m) % 256 = x ||| m :=
  Nat.mod_eq_of_lt (Nat.or_lt_two_pow (n := 8) hx hm)

theorem or_if_mask (c : Prop) [Decidable c] (x m : Nat) (hx : x < 256) (hm : m < 256) :
    (if c then (x ||| m) % 256 else x) = (x ||| if c then m else 0) ∧
    (x ||| if c then m else 0) < 256 := by
  by_cases h : c
  · simp only [if_pos h]
    exact ⟨or_mask_lt x m hx hm, Nat.or_lt_two_pow (n := 8) hx hm⟩
  · simp only [if_neg h, Nat.or_zero]
    exact ⟨trivial, hx⟩

/-- C7: for every alarm-1 `setAlarm` call with seconds, minutes, hours, daydate
in 0..99 and no transport error, the four bytes written to
ALM1_SECONDS..ALM1_SECONDS+3 are the packed-BCD encodings of the fields, each
ORed with its own mask bits and no other: 0x80 into the seconds byte iff
alarmType bit 0x01 is set, 0x80 into the minutes byte iff bit 0x02 is set, 0x80
into the hours byte iff bit 0x04 is set, 0x80 into the day/date byte iff bit
0x08 is set and 0x40 into the day/date byte iff bit 0x10 is set. -/
theorem setAlarm1_bytes (alarmType seconds minutes hours daydate : Nat) (s : Sim)
    (hf : s.faults = []) (h1 : alarmType &&& 0x80 = 0)
    (hs : seconds ≤ 99) (hm : minutes ≤ 99) (hh : hours ≤ 99) (hd : daydate ≤ 99) :
    (setAlarm alarmType seconds minutes hours daydate s).log =
      s.log ++
        [BusOp.endTransmission
          [ALM1_SECONDS, (((seconds / 10) <<< 4) ||| (seconds % 10)) |||
            (if alarmType &&& 0x01 ≠ 0 then 0x80 else 0)] 0,
         BusOp.endTransmission
          [ALM1_SECONDS + 1, (((minutes / 10) <<< 4) ||| (minutes % 10)) |||
            (if alarmType &&& 0x02 ≠ 0 then 0x80 else 0)] 0,
         BusOp.endTransmission
          [ALM1_SECONDS + 2, (((hours / 10) <<< 4) ||| (hours % 10)) |||
            (if alarmType &&& 0x04 ≠ 0 then 0x80 else 0)] 0,
         BusOp.endTransmission
          [ALM1_SECONDS + 3, ((((daydate / 10) <<< 4) ||| (daydate % 10)) |||
            (if alarmType &&& 0x10 ≠ 0 then 0x40 else 0)) |||
            (if alarmType &&& 0x08 ≠ 0 then 0x80 else 0)] 0] ∧
    (setAlarm alarmType seconds minutes hours daydate s).regs ALM1_SECONDS =
      (((seconds / 10) <<< 4) ||| (seconds % 10)) |||
        (if alarmType &&& 0x01 ≠ 0 then 0x80 else 0) ∧
    (setAlarm alarmType seconds minutes hours daydate s).regs (ALM1_SECONDS + 1) =
      (((minutes / 10) <<< 4) ||| (minutes % 10)) |||
        (if alarmType &&& 0x02 ≠ 0 then 0x80 else 0) ∧
    (setAlarm alarmType seconds minutes hours daydate s).regs (ALM1_SECONDS + 2) =
      (((hours / 10) <<< 4) ||| (hours % 10)) |||
        (if alarmType &&& 0x04 ≠ 0 then 0x80 else 0) ∧
    (setAlarm alarmType seconds minutes hours daydate s).regs (ALM1_SECONDS + 3) =
      ((((daydate / 10) <<< 4) ||| (daydate % 10)) |||
        (if alarmType &&& 0x10 ≠ 0 then 0x40 else 0)) |||
        (if alarmType &&& 0x08 ≠ 0 then 0x80 else 0) := by
  have ps := (dec2bcd_packed seconds (by omega)).1
  have pm := (dec2bcd_packed minutes (by omega)).1
  have ph := (dec2bcd_packed hours (by omega)).1
  have pd := (dec2bcd_packed daydate (by omega)).1
  obtain ⟨es, ls⟩ := or_if_mask (alarmType &&& 0x01 ≠ 0) (dec2bcd seconds) (_BV A1M1)
    (dec2bcd_lt _) (by decide)
  obtain ⟨em, lm⟩ := or_if_mask (alarmType &&& 0x02 ≠ 0) (dec2bcd minutes) (_BV A1M2)
    (dec2bcd_lt _) (by decide)
  obtain ⟨eh, lh⟩ := or_if_mask (alarmType &&& 0x04 ≠ 0) (dec2bcd hours) (_BV A1M3)
    (dec2bcd_lt _) (by decide)
  obtain ⟨ed1, hd1⟩ := or_if_mask (alarmType &&& 0x10 ≠ 0) (dec2bcd daydate) (_BV DYDT)
    (dec2bcd_lt _) (by decide)
  obtain ⟨ed, ld⟩ := or_if_mask (alarmType &&& 0x08 ≠ 0)
    (dec2bcd daydate ||| (if alarmType &&& 0x10 ≠ 0 then _BV DYDT else 0)) (_BV A1M4)
    hd1 (by decide)
  have v80 : _BV A1M1 = 0x80 ∧ _BV A1M2 = 0x80 ∧ _BV A1M3 = 0x80 ∧ _BV A1M4 = 0x80 ∧
      _BV DYDT = 0x40 := by decide
  obtain ⟨v1, v2, v3, v4, v5⟩ := v80
  rw [v1] at es ls
  rw [v2] at em lm
  rw [v3] at eh lh
  rw [v5] at ed1 hd1 ed ld
  rw [v4] at ed ld
  simp only [setAlarm, if_pos h1, v1, v2, v3, v4, v5, es, em, eh, ed1, ed]
  rw [← ps, ← pm, ← ph, ← pd]
  generalize dec2bcd seconds ||| (if alarmType &&& 0x01 ≠ 0 then 0x80 else 0) = b0 at ls ⊢
  generalize dec2bcd minutes ||| (if alarmType &&& 0x02 ≠ 0 then 0x80 else 0) = b1 at lm ⊢
  generalize dec2bcd hours ||| (if alarmType &&& 0x04 ≠ 0 then 0x80 else 0) = b2 at lh ⊢
  generalize (dec2bcd daydate ||| (if alarmType &&& 0x10 ≠ 0 then 0x40 else 0)) |||
      (if alarmType &&& 0x08 ≠ 0 then 0x80 else 0) = b3 at ld ⊢
  obtain ⟨a1, a2, a3⟩ := writeRTC1_ok ALM1_SECONDS b0 s hf
  obtain ⟨b1', b2', b3'⟩ := writeRTC1_ok ((ALM1_SECONDS + 1) % 256) b1 _ a2
  obtain ⟨c1, c2, c3⟩ := writeRTC1_ok (((ALM1_SECONDS + 1) % 256 + 1) % 256) b2 _ b2'
  obtain ⟨d1, d2, d3⟩ := writeRTC1_ok ((((ALM1_SECONDS + 1) % 256 + 1) % 256 + 1) % 256) b3 _ c2
  simp only [ALM1_SECONDS] at a1 a3 b1' b3' c1 c3 d1 d3 ⊢
  refine ⟨?_, ?_, ?_, ?_, ?_⟩
  · simp only [writeRTC1_log, a1, b1', c1, d1, List.append_assoc, List.singleton_append,
      List.cons_append, List.nil_append, Nat.mod_eq_of_lt ls,
      Nat.mod_eq_of_lt lm, Nat.mod_eq_of_lt lh, Nat.mod_eq_of_lt ld]
  all_goals
    rw [d3, c3, b3', a3]
    simp [Function.update_apply, Nat.mod_eq_of_lt ls,
      Nat.mod_eq_of_lt lm, Nat.mod_eq_of_lt lh, Nat.mod_eq_of_lt ld]

theorem setAlarm1_bytes_witness :
    (Sim.ofRegs (fun _ => 0)).faults = [] ∧ 0x1D &&& 0x80 = 0 ∧
    30 ≤ 99 ∧ 45 ≤ 99 ∧ 12 ≤ 99 ∧ 7 ≤ 99 ∧
    (setAlarm 0x1D 30 45 12 7 (Sim.ofRegs (fun _ => 0))).log =
      [BusOp.endTransmission [0x07, 0xB0] 0, BusOp.endTransmission [0x08, 0x45] 0,
       BusOp.endTransmission [0x09, 0x92] 0, BusOp.endTransmission [0x0A, 0xC7] 0] :=
  ⟨rfl, by decide, by decide, by decide, by decide, by decide,
   (setAlarm1_bytes 0x1D 30 45 12 7 (Sim.ofRegs (fun _ => 0)) rfl (by decide)
      (by decide) (by decide) (by decide) (by decide)).1⟩

/-- C8: for every alarm-2 type (bit 0x80 set), all minutes, hours, daydate, any
two seconds values and any device state, the two `setAlarm` calls end in the
same device state, registers and log of bus operations included: the seconds
argument has no effect for alarm 2. -/
theorem setAlarm2_ignores_seconds (alarmType s1 s2 minutes hours daydate : Nat) (s : Sim)
    (h : alarmType &&& 0x80 ≠ 0) :
    setAlarm alarmType s1 minutes hours daydate s =
      setAlarm alarmType s2 minutes hours daydate s ∧
    (setAlarm alarmType s1 minutes hours daydate s).regs =
      (setAlarm alarmType s2 minutes hours daydate s).regs ∧
    (setAlarm alarmType s1 minutes hours daydate s).log =
      (setAlarm alarmType s2 minutes hours daydate s).log := by
  have e : setAlarm alarmType s1 minutes hours daydate s =
      setAlarm alarmType s2 minutes hours daydate s := by
    simp only [setAlarm, if_neg h]
  exact ⟨e, by rw [e], by rw [e]⟩

theorem setAlarm2_ignores_seconds_witness :
    0x8E &&& 0x80 ≠ 0 ∧
    (setAlarm 0x8E 0 45 12 7 (Sim.ofRegs (fun _ => 0))).log =
      (setAlarm 0x8E 59 45 12 7 (Sim.ofRegs (fun _ => 0))).log :=
  ⟨by decide,
   (setAlarm2_ignores_seconds 0x8E 0 59 45 12 7 (Sim.ofRegs (fun _ => 0)) (by decide)).2.2⟩

/-- Bits of `x & ~m` for bytes `x` and `m`. -/
theorem and_not8_testBit (x m i : Nat) (hx : x < 256) :
    (x &&& not8 m).testBit i = (x.testBit i && !(m % 256).testBit i) := by
  simp only [not8, Nat.testBit_and, Nat.testBit_xor]
  rcases Nat.lt_or_ge i 8 with h | h
  · have : Nat.testBit 255 i = true := by interval_cases i <;> decide
    simp [this]
  · have : x < 2 ^ i := lt_of_lt_of_le hx (by
      calc 256 = 2 ^ 8 := by norm_num
        _ ≤ 2 ^ i := Nat.pow_le_pow_right (by norm_num) h)
    simp [Nat.testBit_lt_two_pow this]

/-- Without transport error `alarm` reads the status register, and rewrites it
with the flag bit cleared exactly when that bit is set. -/
theorem alarm_ok (alarmNumber : Nat) (s : Sim) (hf : s.faults = [])
    (hs : s.regs RTC_STATUS < 256) :
    (alarm alarmNumber s).1
      = decide (s.regs RTC_STATUS &&& ((_BV A1F <<< (alarmNumber - 1)) % 256) ≠ 0) ∧
    (alarm alarmNumber s).2.faults = [] ∧
    (alarm alarmNumber s).2.regs =
      (if s.regs RTC_STATUS &&& ((_BV A1F <<< (alarmNumber - 1)) % 256) ≠ 0 then
        Function.update s.regs RTC_STATUS
          (s.regs RTC_STATUS &&& not8 ((_BV A1F <<< (alarmNumber - 1)) % 256))
       else s.regs) ∧
    (alarm alarmNumber s).2.log =
      s.log ++ [BusOp.endTransmission [RTC_STATUS] 0, BusOp.requestFrom 1, BusOp.read] ++
      (if s.regs RTC_STATUS &&& ((_BV A1F <<< (alarmNumber - 1)) % 256) ≠ 0 then
        [BusOp.endTransmission [RTC_STATUS,
          s.regs RTC_STATUS &&& not8 ((_BV A1F <<< (alarmNumber - 1)) % 256)] 0]
       else []) := by
  have hs15 : s.regs 15 < 256 := hs
  have hlt : ∀ m, s.regs 15 &&& not8 m < 256 := fun m =>
    lt_of_le_of_lt Nat.and_le_left hs15
  simp only [alarm, readRTC1_ok _ _ hf, RTC_STATUS, Nat.mod_eq_of_lt hs15]
  split_ifs with hb
  · rw [writeRTC1_eq]
    simp [hf, hb, Nat.mod_eq_of_lt (hlt _)]
  · simp [hf, hb]

theorem alarm_mask_cases (alarmNumber : Nat) (hn : alarmNumber = 1 ∨ alarmNumber = 2) :
    (_BV A1F <<< (alarmNumber - 1)) % 256 = _BV A1F <<< (alarmNumber - 1) ∧
    _BV A1F <<< (alarmNumber - 1) = 2 ^ (A1F + (alarmNumber - 1)) ∧
    not8 (_BV A1F <<< (alarmNumber - 1)) &&& (_BV A1F <<< (alarmNumber - 1)) = 0 := by
  rcases hn with rfl | rfl <;> decide

/-- C9: for alarmNumber 1 or 2, a status byte in which the flag bit
`A1F << (alarmNumber-1)` is set, and no transport error, the first call
`alarm(alarmNumber)` returns true and leaves that flag bit clear in the status
register, and the call that follows returns false. -/
theorem alarm_true_once (alarmNumber : Nat) (s : Sim)
    (hn : alarmNumber = 1 ∨ alarmNumber = 2) (hf : s.faults = [])
    (hs : s.regs RTC_STATUS < 256)
    (hflag : s.regs RTC_STATUS &&& (_BV A1F <<< (alarmNumber - 1)) ≠ 0) :
    (alarm alarmNumber s).1 = true ∧
    (alarm alarmNumber s).2.regs RTC_STATUS &&& (_BV A1F <<< (alarmNumber - 1)) = 0 ∧
    (alarm alarmNumber (alarm alarmNumber s).2).1 = false := by
  obtain ⟨hm, _, hz⟩ := alarm_mask_cases alarmNumber hn
  obtain ⟨r1, f1, g1, _⟩ := alarm_ok alarmNumber s hf hs
  rw [hm] at r1 g1
  rw [if_pos hflag] at g1
  have e1 : (alarm alarmNumber s).2.regs RTC_STATUS =
      s.regs RTC_STATUS &&& not8 (_BV A1F <<< (alarmNumber - 1)) := by
    rw [g1]; exact Function.update_same _ _ _
  have e2 : (alarm alarmNumber s).2.regs RTC_STATUS &&& (_BV A1F <<< (alarmNumber - 1)) = 0 := by
    rw [e1, Nat.and_assoc, hz, Nat.and_zero]
  have hs1 : (alarm alarmNumber s).2.regs RTC_STATUS < 256 := by
    rw [e1]; exact lt_of_le_of_lt Nat.and_le_left hs
  obtain ⟨r2, _⟩ := alarm_ok alarmNumber (alarm alarmNumber s).2 f1 hs1
  rw [hm] at r2
  refine ⟨?_, e2, ?_⟩
  · rw [r1]; exact decide_eq_true hflag
  · rw [r2]; exact decide_eq_false (by rw [e2]; exact fun h => h rfl)

theorem alarm_true_once_witness :
    ((2 : Nat) = 1 ∨ (2 : Nat) = 2) ∧
    (Sim.ofRegs (fun a => if a = 15 then 0x83 else 0)).faults = [] ∧
    (Sim.ofRegs (fun a => if a = 15 then 0x83 else 0)).regs RTC_STATUS < 256 ∧
    (Sim.ofRegs (fun a => if a = 15 then 0x83 else 0)).regs RTC_STATUS &&&
      (_BV A1F <<< (2 - 1)) ≠ 0 ∧
    (alarm 2 (Sim.ofRegs (fun a => if a = 15 then 0x83 else 0))).1 = true ∧
    (alarm 2 (Sim.ofRegs (fun a => if a = 15 then 0x83 else 0))).2.regs RTC_STATUS &&&
      (_BV A1F <<< (2 - 1)) = 0 ∧
    (alarm 2 (alarm 2 (Sim.ofRegs (fun a => if a = 15 then 0x83 else 0))).2).1 = false :=
  ⟨by decide, rfl, by decide, by decide,
   alarm_true_once 2 (Sim.ofRegs (fun a => if a = 15 then 0x83 else 0)) (by decide) rfl
     (by decide) (by decide)⟩

/-- C10: for alarmNumber 1 or 2, every status byte s and no transport error,
with mask = `A1F << (alarmNumber-1)`: `alarm(alarmNumber)` returns true iff
`s & mask` is nonzero; when it returns true the status register afterwards is
`s & ~mask`, every bit other than the flag bit is as in s, and every other
register is unchanged; when it returns false the registers are unchanged and
none of the bus operations performed is a register write. -/
theorem alarm_spec (alarmNumber : Nat) (s : Sim)
    (hn : alarmNumber = 1 ∨ alarmNumber = 2) (hf : s.faults = [])
    (hs : s.regs RTC_STATUS < 256) :
    ((alarm alarmNumber s).1 = true ↔
      s.regs RTC_STATUS &&& (_BV A1F <<< (alarmNumber - 1)) ≠ 0) ∧
    ((alarm alarmNumber s).1 = true →
      (alarm alarmNumber s).2.regs RTC_STATUS =
        s.regs RTC_STATUS &&& not8 (_BV A1F <<< (alarmNumber - 1)) ∧
      (∀ i, i ≠ A1F + (alarmNumber - 1) →
        ((alarm alarmNumber s).2.regs RTC_STATUS).testBit i =
          (s.regs RTC_STATUS).testBit i) ∧
      (∀ a, a ≠ RTC_STATUS → (alarm alarmNumber s).2.regs a = s.regs a)) ∧
    ((alarm alarmNumber s).1 = false →
      (alarm alarmNumber s).2.regs = s.regs ∧
      ∃ ops, (alarm alarmNumber s).2.log = s.log ++ ops ∧
        ∀ op ∈ ops, op.isRegWrite = false) := by
  obtain ⟨hm, hp, _⟩ := alarm_mask_cases alarmNumber hn
  obtain ⟨r1, _, g1, l1⟩ := alarm_ok alarmNumber s hf hs
  rw [hm] at r1 g1 l1
  have hiff : (alarm alarmNumber s).1 = true ↔
      s.regs RTC_STATUS &&& (_BV A1F <<< (alarmNumber - 1)) ≠ 0 := by
    rw [r1]; exact decide_eq_true_iff
  refine ⟨hiff, ?_, ?_⟩
  · intro ht
    have hflag := hiff.1 ht
    rw [if_pos hflag] at g1
    have e1 : (alarm alarmNumber s).2.regs RTC_STATUS =
        s.regs RTC_STATUS &&& not8 (_BV A1F <<< (alarmNumber - 1)) := by
      rw [g1]; exact Function.update_same _ _ _
    refine ⟨e1, ?_, ?_⟩
    · intro i hi
      rw [e1, and_not8_testBit _ _ _ hs, hm, hp, Nat.testBit_two_pow]
      have : decide (A1F + (alarmNumber - 1) = i) = false :=
        decide_eq_false (fun h => hi h.symm)
      simp [this]
    · intro a ha
      rw [g1]; exact Function.update_noteq ha _ _
  · intro hfalse
    have hflag : ¬ (s.regs RTC_STATUS &&& (_BV A1F <<< (alarmNumber - 1)) ≠ 0) := by
      intro h
      rw [hiff.2 h] at hfalse
      exact Bool.noConfusion hfalse
    rw [if_neg hflag] at g1 l1
    refine ⟨g1, _, l1.trans (List.append_nil _), ?_⟩
    intro op hop
    simp only [List.mem_cons, List.mem_singleton, List.not_mem_nil, or_false] at hop
    rcases hop with rfl | rfl | rfl <;> rfl

theorem alarm_spec_witness :
    ((1 : Nat) = 1 ∨ (1 : Nat) = 2) ∧
    (Sim.ofRegs (fun a => if a = 15 then 0x82 else 0)).faults = [] ∧
    (Sim.ofRegs (fun a => if a = 15 then 0x82 else 0)).regs RTC_STATUS < 256 ∧
    ((alarm 1 (Sim.ofRegs (fun a => if a = 15 then 0x82 else 0))).1 = true ↔
      (Sim.ofRegs (fun a => if a = 15 then 0x82 else 0)).regs RTC_STATUS &&&
        (_BV A1F <<< (1 - 1)) ≠ 0) :=
  ⟨by decide, rfl, by decide,
   (alarm_spec 1 (Sim.ofRegs (fun a => if a = 15 then 0x82 else 0)) (by decide) rfl
     (by decide)).1⟩

/-! ## Control and status register logic -/

/-- Without transport error, reading register `a` and writing `f` of the byte
read back to it stores that byte, leaves the other registers alone and performs
one pointer write, one single-byte read and one register write. -/
theorem rmw_ok (a : Nat) (f : Nat → Nat) (s : Sim) (hf : s.faults = []) (ha : a < 256) :
    (writeRTC1 a (f (readRTC1 a s).1) (readRTC1 a s).2).2.regs =
      Function.update s.regs a (f (s.regs a % 256) % 256) ∧
    (writeRTC1 a (f (readRTC1 a s).1) (readRTC1 a s).2).2.faults = [] ∧
    (writeRTC1 a (f (readRTC1 a s).1) (readRTC1 a s).2).2.log =
      s.log ++ [BusOp.endTransmission [a] 0, BusOp.requestFrom 1, BusOp.read,
        BusOp.endTransmission [a, f (s.regs a % 256) % 256] 0] := by
  have hr := readRTC1_ok a s hf
  have hf2 : (readRTC1 a s).2.faults = [] := by rw [hr]; exact hf
  obtain ⟨w1, w2, w3⟩ := writeRTC1_ok a (f (readRTC1 a s).1) (readRTC1 a s).2 hf2
  refine ⟨?_, w2, ?_⟩
  · rw [w3, hr, Nat.mod_eq_of_lt ha]
  · rw [writeRTC1_log, w1, hr]
    simp [Nat.mod_eq_of_lt ha]

/-- A byte has no bit at position 8 or above. -/
theorem testBit_byte_high (x i : Nat) (hx : x < 256) (hi : 8 ≤ i) : x.testBit i = false :=
  Nat.testBit_lt_two_pow (lt_of_lt_of_le hx (by
    calc 256 = 2 ^ 8 := by norm_num
      _ ≤ 2 ^ i := Nat.pow_le_pow_right (by norm_num) hi))

/-- Two numbers that agree under a mask agree on every bit of the mask. -/
theorem testBit_of_and_eq (x y m i : Nat) (h : x &&& m = y &&& m) (hm : m.testBit i = true) :
    x.testBit i = y.testBit i := by
  have := congrArg (fun z => Nat.testBit z i) h
  simpa [Nat.testBit_and, hm] using this

theorem enable_mask_cases (alarmNumber : Nat) (hn : alarmNumber = 1 ∨ alarmNumber = 2) :
    (_BV A1IE <<< (alarmNumber - 1)) % 256 = 2 ^ (A1IE + (alarmNumber - 1)) ∧
    2 ^ (A1IE + (alarmNumber - 1)) < 256 := by
  rcases hn with rfl | rfl <;> decide

/-- C11: for alarmNumber 1 or 2, every boolean `interruptEnabled`, every control
byte c and no transport error, after `alarmInterrupt` the control register has
bit `A1IE + (alarmNumber-1)` equal to `interruptEnabled` and every other bit
equal to the bit of c; every other register is unchanged. -/
theorem alarmInterrupt_spec (alarmNumber : Nat) (interruptEnabled : Bool) (s : Sim)
    (hn : alarmNumber = 1 ∨ alarmNumber = 2) (hf : s.faults = [])
    (hc : s.regs RTC_CONTROL < 256) :
    ((alarmInterrupt alarmNumber interruptEnabled s).regs RTC_CONTROL).testBit
        (A1IE + (alarmNumber - 1)) = interruptEnabled ∧
    (∀ i, i ≠ A1IE + (alarmNumber - 1) →
      ((alarmInterrupt alarmNumber interruptEnabled s).regs RTC_CONTROL).testBit i =
        (s.regs RTC_CONTROL).testBit i) ∧
    (∀ a, a ≠ RTC_CONTROL →
      (alarmInterrupt alarmNumber interruptEnabled s).regs a = s.regs a) := by
  obtain ⟨hm, hlt⟩ := enable_mask_cases alarmNumber hn
  obtain ⟨hr, _, _⟩ := rmw_ok RTC_CONTROL
    (fun c => if interruptEnabled then (c ||| (_BV A1IE <<< (alarmNumber - 1)) % 256) % 256
      else c &&& not8 ((_BV A1IE <<< (alarmNumber - 1)) % 256)) s hf (by decide)
  have hregs : (alarmInterrupt alarmNumber interruptEnabled s).regs =
      Function.update s.regs RTC_CONTROL
        ((if interruptEnabled then
            (s.regs RTC_CONTROL % 256 ||| (_BV A1IE <<< (alarmNumber - 1)) % 256) % 256
          else s.regs RTC_CONTROL % 256 &&& not8 ((_BV A1IE <<< (alarmNumber - 1)) % 256))
          % 256) := hr
  rw [Nat.mod_eq_of_lt hc, hm] at hregs
  have hval : (alarmInterrupt alarmNumber interruptEnabled s).regs RTC_CONTROL =
      if interruptEnabled then s.regs RTC_CONTROL ||| 2 ^ (A1IE + (alarmNumber - 1))
      else s.regs RTC_CONTROL &&& not8 (2 ^ (A1IE + (alarmNumber - 1))) := by
    rw [hregs, Function.update_same]
    cases interruptEnabled
    · simp only [Bool.false_eq_true, if_false]
      exact Nat.mod_eq_of_lt (lt_of_le_of_lt Nat.and_le_left hc)
    · simp only [if_true]
      rw [or_mask_lt _ _ hc hlt, or_mask_lt _ _ hc hlt]
  refine ⟨?_, ?_, ?_⟩
  · rw [hval]
    cases interruptEnabled
    · simp only [Bool.false_eq_true, if_false]
      rw [and_not8_testBit _ _ _ hc, Nat.mod_eq_of_lt hlt, Nat.testBit_two_pow]
      simp
    · simp only [if_true]
      rw [Nat.testBit_or, Nat.testBit_two_pow]
      simp
  · intro i hi
    have hd : decide (A1IE + (alarmNumber - 1) = i) = false :=
      decide_eq_false (fun h => hi h.symm)
    rw [hval]
    cases interruptEnabled
    · simp only [Bool.false_eq_true, if_false]
      rw [and_not8_testBit _ _ _ hc, Nat.mod_eq_of_lt hlt, Nat.testBit_two_pow, hd]
      simp
    · simp only [if_true]
      rw [Nat.testBit_or, Nat.testBit_two_pow, hd]
      simp
  · intro a ha
    rw [hregs]
    exact Function.update_noteq ha _ _

theorem alarmInterrupt_spec_witness :
    ((2 : Nat) = 1 ∨ (2 : Nat) = 2) ∧
    (Sim.ofRegs (fun a => if a = 14 then 0x1D else 0)).faults = [] ∧
    (Sim.ofRegs (fun a => if a = 14 then 0x1D else 0)).regs RTC_CONTROL < 256 ∧
    ((alarmInterrupt 2 true
        (Sim.ofRegs (fun a => if a = 14 then 0x1D else 0))).regs RTC_CONTROL).testBit
      (A1IE + (2 - 1)) = true :=
  ⟨by decide, rfl, by decide,
   (alarmInterrupt_spec 2 true (Sim.ofRegs (fun a => if a = 14 then 0x1D else 0))
     (by decide) rfl (by decide)).1⟩

set_option maxRecDepth 1000000 in
theorem sq_rate_byte : ∀ c, c < 256 → ∀ f, f < 4 →
    ((c &&& 0xE3) ||| (f <<< 3)) % 256 = (c &&& 0xE3) ||| (f <<< 3) ∧
    ((c &&& 0xE3) ||| (f <<< 3)) &&& 0xE3 = c &&& 0xE3 ∧
    ((c &&& 0xE3) ||| (f <<< 3)) &&& 0x04 = 0 ∧
    (((c &&& 0xE3) ||| (f <<< 3)) >>> 3) &&& 3 = f := by decide

set_option maxRecDepth 100000 in
theorem sq_none_byte : ∀ c, c < 256 →
    (c ||| 4) % 256 = c ||| 4 ∧ (c ||| 4) &&& 0xE3 = c &&& 0xE3 ∧
    (c ||| 4) &&& 0x18 = c &&& 0x18 ∧ (c ||| 4) &&& 0x04 = 0x04 := by decide

/-- Without transport error `squareWave` rewrites the control register and no
other register. -/
theorem squareWave_ok (freq : Nat) (s : Sim) (hf : s.faults = [])
    (hc : s.regs RTC_CONTROL < 256) :
    (squareWave freq s).regs =
      Function.update s.regs RTC_CONTROL
        (if freq ≥ SQWAVE_NONE then s.regs RTC_CONTROL ||| _BV INTCN
         else ((s.regs RTC_CONTROL &&& 0xE3) ||| (freq <<< RS1)) % 256) := by
  obtain ⟨hr, _, _⟩ := rmw_ok RTC_CONTROL
    (fun c => if freq ≥ SQWAVE_NONE then (c ||| _BV INTCN) % 256
      else ((c &&& 0xE3) ||| (freq <<< RS1)) % 256) s hf (by decide)
  have hregs : (squareWave freq s).regs =
      Function.update s.regs RTC_CONTROL
        ((if freq ≥ SQWAVE_NONE then (s.regs RTC_CONTROL % 256 ||| _BV INTCN) % 256
          else ((s.regs RTC_CONTROL % 256 &&& 0xE3) ||| (freq <<< RS1)) % 256) % 256) := hr
  have hv : (if freq ≥ SQWAVE_NONE then (s.regs RTC_CONTROL ||| _BV INTCN) % 256
        else ((s.regs RTC_CONTROL &&& 0xE3) ||| (freq <<< RS1)) % 256) % 256 =
      (if freq ≥ SQWAVE_NONE then s.regs RTC_CONTROL ||| _BV INTCN
        else ((s.regs RTC_CONTROL &&& 0xE3) ||| (freq <<< RS1)) % 256) := by
    split_ifs
    · rw [Nat.mod_mod]; exact (sq_none_byte _ hc).1
    · rw [Nat.mod_mod]
  rw [hregs, Nat.mod_eq_of_lt hc, hv]

theorem testBit_E3 (i : Nat) (hi : i < 8) (h2 : i ≠ 2) (h3 : i ≠ 3) (h4 : i ≠ 4) :
    Nat.testBit 0xE3 i = true := by
  interval_cases i <;> first | decide | contradiction

theorem testBit_two_of_and_four (x : Nat) : x.testBit 2 = (x &&& 4).testBit 2 := by
  have h4 : Nat.testBit 4 2 = true := by decide
  rw [Nat.testBit_and, h4, Bool.and_true]

/-- C12: for every control byte c, every `freq` (the rates 0..3 and the
sentinel SQWAVE_NONE among them) and no transport error, the control register
after `squareWave freq` agrees with c on every bit other than INTCN (bit 2),
RS1 (bit 3) and RS2 (bit 4), so that bits 0, 1, 5, 6 and 7 are unchanged. -/
theorem squareWave_preserves_bits (freq : Nat) (s : Sim) (hf : s.faults = [])
    (hc : s.regs RTC_CONTROL < 256) :
    ∀ i, i ≠ INTCN → i ≠ RS1 → i ≠ RS2 →
      ((squareWave freq s).regs RTC_CONTROL).testBit i = (s.regs RTC_CONTROL).testBit i := by
  intro i h2 h3 h4
  have hv : (squareWave freq s).regs RTC_CONTROL =
      (if freq ≥ SQWAVE_NONE then s.regs RTC_CONTROL ||| _BV INTCN
       else ((s.regs RTC_CONTROL &&& 0xE3) ||| (freq <<< RS1)) % 256) := by
    rw [squareWave_ok freq s hf hc, Function.update_same]
  have hmask : (squareWave freq s).regs RTC_CONTROL &&& 0xE3 = s.regs RTC_CONTROL &&& 0xE3 ∧
      (squareWave freq s).regs RTC_CONTROL < 256 := by
    rw [hv]
    split_ifs with hq
    · obtain ⟨a1, a2, _, _⟩ := sq_none_byte _ hc
      refine ⟨a2, ?_⟩
      show s.regs RTC_CONTROL ||| 4 < 256
      rw [← a1]; exact Nat.mod_lt _ (by decide)
    · have hq4 : freq < 4 := by simpa [SQWAVE_NONE] using hq
      obtain ⟨b1, b2, _, _⟩ := sq_rate_byte _ hc freq hq4
      exact ⟨by rw [show RS1 = 3 from rfl, b1]; exact b2, Nat.mod_lt _ (by decide)⟩
  rcases Nat.lt_or_ge i 8 with h | h
  · exact testBit_of_and_eq _ _ _ i hmask.1 (testBit_E3 i h h2 h3 h4)
  · rw [testBit_byte_high _ i hmask.2 h, testBit_byte_high _ i hc h]

theorem squareWave_preserves_bits_witness :
    (Sim.ofRegs (fun a => if a = 14 then 0xE7 else 0)).faults = [] ∧
    (Sim.ofRegs (fun a => if a = 14 then 0xE7 else 0)).regs RTC_CONTROL < 256 ∧
    ((squareWave 2 (Sim.ofRegs (fun a => if a = 14 then 0xE7 else 0))).regs
        RTC_CONTROL).testBit 1 =
      ((Sim.ofRegs (fun a => if a = 14 then 0xE7 else 0)).regs RTC_CONTROL).testBit 1 :=
  ⟨rfl, by decide,
   squareWave_preserves_bits 2 (Sim.ofRegs (fun a => if a = 14 then 0xE7 else 0)) rfl
     (by decide) 1 (by decide) (by decide) (by decide)⟩

/-- C13: for every rate `freq` in 0..3, every control byte c and no transport
error, `squareWave freq` leaves `(c & 0xE3) | (freq << RS1)` in the control
register: INTCN is clear and the rate-select bits RS2:RS1 hold `freq`. -/
theorem squareWave_rate (freq : Nat) (s : Sim) (hf : s.faults = [])
    (hc : s.regs RTC_CONTROL < 256) (hq : freq ≤ 3) :
    (squareWave freq s).regs RTC_CONTROL =
      (s.regs RTC_CONTROL &&& 0xE3) ||| (freq <<< RS1) ∧
    ((squareWave freq s).regs RTC_CONTROL).testBit INTCN = false ∧
    ((squareWave freq s).regs RTC_CONTROL >>> RS1) &&& 3 = freq ∧
    ((squareWave freq s).regs RTC_CONTROL).testBit RS1 = freq.testBit 0 ∧
    ((squareWave freq s).regs RTC_CONTROL).testBit RS2 = freq.testBit 1 := by
  have hn : ¬ freq ≥ SQWAVE_NONE := by simp only [SQWAVE_NONE]; omega
  obtain ⟨b1, _, b3, b4⟩ := sq_rate_byte _ hc freq (by omega)
  have hv : (squareWave freq s).regs RTC_CONTROL =
      (s.regs RTC_CONTROL &&& 0xE3) ||| (freq <<< RS1) := by
    rw [squareWave_ok freq s hf hc, Function.update_same, if_neg hn]
    exact b1
  have hb : ∀ j, ((squareWave freq s).regs RTC_CONTROL).testBit (RS1 + j) =
      (((squareWave freq s).regs RTC_CONTROL >>> RS1) &&& 3).testBit j ∨ 2 ≤ j := by
    intro j
    rcases Nat.lt_or_ge j 2 with h | h
    · left
      rw [Nat.testBit_and, Nat.testBit_shiftRight]
      have : Nat.testBit 3 j = true := by interval_cases j <;> decide
      simp [this]
    · exact Or.inr h
  refine ⟨hv, ?_, ?_, ?_, ?_⟩
  · rw [hv, show RS1 = 3 from rfl, show INTCN = 2 from rfl, testBit_two_of_and_four, b3]
    decide
  · rw [hv]; exact b4
  · have h0 := (hb 0).resolve_right (by decide)
    rw [hv] at h0 ⊢
    rw [show RS1 + 0 = RS1 from rfl] at h0
    rw [h0]; exact congrArg (fun z => Nat.testBit z 0) b4
  · have h1 := (hb 1).resolve_right (by decide)
    rw [hv] at h1 ⊢
    rw [show RS1 + 1 = RS2 from rfl] at h1
    rw [h1]; exact congrArg (fun z => Nat.testBit z 1) b4

theorem squareWave_rate_witness :
    (Sim.ofRegs (fun a => if a = 14 then 0xFF else 0)).faults = [] ∧
    (Sim.ofRegs (fun a => if a = 14 then 0xFF else 0)).regs RTC_CONTROL < 256 ∧
    2 ≤ 3 ∧
    (squareWave 2 (Sim.ofRegs (fun a => if a = 14 then 0xFF else 0))).regs RTC_CONTROL =
      0xF3 :=
  ⟨rfl, by decide, by decide,
   (squareWave_rate 2 (Sim.ofRegs (fun a => if a = 14 then 0xFF else 0)) rfl
     (by decide) (by decide)).1⟩

/-- C14: for every control byte c and no transport error, `squareWave` called
with the sentinel (`freq >= SQWAVE_NONE`) leaves `c | INTCN` in the control
register: INTCN is set and RS1 and RS2 keep the values they had in c. -/
theorem squareWave_none (freq : Nat) (s : Sim) (hf : s.faults = [])
    (hc : s.regs RTC_CONTROL < 256) (hq : freq ≥ SQWAVE_NONE) :
    (squareWave freq s).regs RTC_CONTROL = s.regs RTC_CONTROL ||| _BV INTCN ∧
    ((squareWave freq s).regs RTC_CONTROL).testBit INTCN = true ∧
    ((squareWave freq s).regs RTC_CONTROL).testBit RS1 = (s.regs RTC_CONTROL).testBit RS1 ∧
    ((squareWave freq s).regs RTC_CONTROL).testBit RS2 = (s.regs RTC_CONTROL).testBit RS2 := by
  have hv : (squareWave freq s).regs RTC_CONTROL = s.regs RTC_CONTROL ||| _BV INTCN := by
    rw [squareWave_ok freq s hf hc, Function.update_same, if_pos hq]
  obtain ⟨_, _, a3, a4⟩ := sq_none_byte _ hc
  refine ⟨hv, ?_, ?_, ?_⟩
  · rw [hv, show _BV INTCN = 4 from rfl, show INTCN = 2 from rfl, testBit_two_of_and_four, a4]
    decide
  · rw [hv, show _BV INTCN = 4 from rfl]
    exact testBit_of_and_eq _ _ 0x18 RS1 a3 (by decide)
  · rw [hv, show _BV INTCN = 4 from rfl]
    exact testBit_of_and_eq _ _ 0x18 RS2 a3 (by decide)

theorem squareWave_none_witness :
    (Sim.ofRegs (fun a => if a = 14 then 0x19 else 0)).faults = [] ∧
    (Sim.ofRegs (fun a => if a = 14 then 0x19 else 0)).regs RTC_CONTROL < 256 ∧
    SQWAVE_NONE ≥ SQWAVE_NONE ∧
    (squareWave SQWAVE_NONE
        (Sim.ofRegs (fun a => if a = 14 then 0x19 else 0))).regs RTC_CONTROL = 0x1D :=
  ⟨rfl, by decide, by decide,
   (squareWave_none SQWAVE_NONE (Sim.ofRegs (fun a => if a = 14 then 0x19 else 0)) rfl
     (by decide) (by decide)).1⟩

set_option maxRecDepth 100000 in
theorem osf_byte : ∀ x, x < 256 →
    (x &&& _BV OSF ≠ 0 ↔ x.testBit OSF = true) ∧ x &&& not8 (_BV OSF) = x &&& 0x7F := by
  decide

/-- Without transport error `oscStopped` reads the status register, and
rewrites it with OSF cleared exactly when OSF is set and `clearOSF` is true. -/
theorem oscStopped_ok (clearOSF : Bool) (s : Sim) (hf : s.faults = [])
    (hs : s.regs RTC_STATUS < 256) :
    (oscStopped clearOSF s).1 = decide (s.regs RTC_STATUS &&& _BV OSF ≠ 0) ∧
    (oscStopped clearOSF s).2.regs =
      (if s.regs RTC_STATUS &&& _BV OSF ≠ 0 ∧ clearOSF = true then
        Function.update s.regs RTC_STATUS (s.regs RTC_STATUS &&& not8 (_BV OSF))
       else s.regs) ∧
    (oscStopped clearOSF s).2.log =
      s.log ++ [BusOp.endTransmission [RTC_STATUS] 0, BusOp.requestFrom 1, BusOp.read] ++
      (if s.regs RTC_STATUS &&& _BV OSF ≠ 0 ∧ clearOSF = true then
        [BusOp.endTransmission [RTC_STATUS, s.regs RTC_STATUS &&& not8 (_BV OSF)] 0]
       else []) := by
  have hs15 : s.regs 15 < 256 := hs
  have hlt : s.regs 15 &&& not8 (_BV OSF) < 256 := lt_of_le_of_lt Nat.and_le_left hs15
  simp only [oscStopped, readRTC1_ok _ _ hf, RTC_STATUS, Nat.mod_eq_of_lt hs15]
  by_cases hb : s.regs 15 &&& _BV OSF ≠ 0 <;> cases clearOSF
  · simp [hb]
  · rw [writeRTC1_eq]
    simp [hf, hb, Nat.mod_eq_of_lt hlt]
  · simp [hb]
  · simp [hb]

/-- C15: for every status byte s, every boolean `clearOSF` and no transport
error, `oscStopped clearOSF` returns true iff OSF (bit 7) of s is set, the value
of the flag before any clearing; when OSF is set and `clearOSF` is true the
status register afterwards is `s & ~OSF` and no other register changes;
otherwise the registers are unchanged and none of the bus operations performed
is a register write. -/
theorem oscStopped_spec (clearOSF : Bool) (s : Sim) (hf : s.faults = [])
    (hs : s.regs RTC_STATUS < 256) :
    ((oscStopped clearOSF s).1 = true ↔ (s.regs RTC_STATUS).testBit OSF = true) ∧
    ((s.regs RTC_STATUS).testBit OSF = true ∧ clearOSF = true →
      (oscStopped clearOSF s).2.regs RTC_STATUS = s.regs RTC_STATUS &&& not8 (_BV OSF) ∧
      (oscStopped clearOSF s).2.regs RTC_STATUS = s.regs RTC_STATUS &&& 0x7F ∧
      (∀ a, a ≠ RTC_STATUS → (oscStopped clearOSF s).2.regs a = s.regs a)) ∧
    (¬ ((s.regs RTC_STATUS).testBit OSF = true ∧ clearOSF = true) →
      (oscStopped clearOSF s).2.regs = s.regs ∧
      ∃ ops, (oscStopped clearOSF s).2.log = s.log ++ ops ∧
        ∀ op ∈ ops, op.isRegWrite = false) := by
  obtain ⟨r1, g1, l1⟩ := oscStopped_ok clearOSF s hf hs
  obtain ⟨hbit, h7f⟩ := osf_byte _ hs
  refine ⟨?_, ?_, ?_⟩
  · rw [r1, decide_eq_true_iff]; exact hbit
  · rintro ⟨hset, hclr⟩
    have hc : s.regs RTC_STATUS &&& _BV OSF ≠ 0 ∧ clearOSF = true := ⟨hbit.2 hset, hclr⟩
    rw [if_pos hc] at g1
    have e1 : (oscStopped clearOSF s).2.regs RTC_STATUS =
        s.regs RTC_STATUS &&& not8 (_BV OSF) := by
      rw [g1]; exact Function.update_same _ _ _
    refine ⟨e1, e1.trans h7f, ?_⟩
    intro a ha
    rw [g1]; exact Function.update_noteq ha _ _
  · intro hno
    have hc : ¬ (s.regs RTC_STATUS &&& _BV OSF ≠ 0 ∧ clearOSF = true) :=
      fun h => hno ⟨hbit.1 h.1, h.2⟩
    rw [if_neg hc] at g1 l1
    refine ⟨g1, _, l1.trans (List.append_nil _), ?_⟩
    intro op hop
    simp only [List.mem_cons, List.mem_singleton, List.not_mem_nil, or_false] at hop
    rcases hop with rfl | rfl | rfl <;> rfl

theorem oscStopped_spec_witness :
    (Sim.ofRegs (fun a => if a = 15 then 0x83 else 0)).faults = [] ∧
    (Sim.ofRegs (fun a => if a = 15 then 0x83 else 0)).regs RTC_STATUS < 256 ∧
    ((oscStopped true (Sim.ofRegs (fun a => if a = 15 then 0x83 else 0))).1 = true ↔
      ((Sim.ofRegs (fun a => if a = 15 then 0x83 else 0)).regs RTC_STATUS).testBit OSF
        = true) ∧
    (oscStopped true (Sim.ofRegs (fun a => if a = 15 then 0x83 else 0))).2.regs RTC_STATUS
      = 0x03 :=
  ⟨rfl, by decide,
   (oscStopped_spec true (Sim.ofRegs (fun a => if a = 15 then 0x83 else 0)) rfl
     (by decide)).1,
   ((oscStopped_spec true (Sim.ofRegs (fun a => if a = 15 then 0x83 else 0)) rfl
     (by decide)).2.1 ⟨by decide, rfl⟩).2.1⟩

/-! ## Temperature reader -/

/-- With the 16-bit `int` of the AVR target the union holds no byte the code
does not write: whatever the uninitialised storage held, `temperature()`
returns the two-complement signed 16-bit value of `msb * 256 + lsb` divided by
64 with truncation toward zero. -/
theorem temperature_int16 (s : Sim) (hf : s.faults = [])
    (hl : s.regs RTC_TEMP_LSB < 256) (hm : s.regs RTC_TEMP_MSB < 256) :
    (temperature 16 s).1 =
      Int.tdiv
        (if s.regs RTC_TEMP_MSB * 256 + s.regs RTC_TEMP_LSB < 32768
         then ((s.regs RTC_TEMP_MSB * 256 + s.regs RTC_TEMP_LSB : Nat) : Int)
         else ((s.regs RTC_TEMP_MSB * 256 + s.regs RTC_TEMP_LSB : Nat) : Int) - 65536)
        64 := by
  have h0 := readRTC1_ok RTC_TEMP_LSB s hf
  have hf2 : (readRTC1 RTC_TEMP_LSB s).2.faults = [] := by rw [h0]; exact hf
  have h1 := readRTC1_ok RTC_TEMP_MSB (readRTC1 RTC_TEMP_LSB s).2 hf2
  have e0 : (readRTC1 RTC_TEMP_LSB s).1 = s.regs RTC_TEMP_LSB := by
    rw [h0]; exact Nat.mod_eq_of_lt hl
  have e1 : (readRTC1 RTC_TEMP_MSB (readRTC1 RTC_TEMP_LSB s).2).1 = s.regs RTC_TEMP_MSB := by
    rw [h1, h0]; exact Nat.mod_eq_of_lt hm
  show (intOfUnion 16 s.uninit (readRTC1 RTC_TEMP_LSB s).1
      (readRTC1 RTC_TEMP_MSB (readRTC1 RTC_TEMP_LSB s).2).1).tdiv 64 = _
  rw [e0, e1]
  have hu : (s.uninit / 65536 * 65536 + s.regs RTC_TEMP_MSB * 256 + s.regs RTC_TEMP_LSB)
      % 65536 = s.regs RTC_TEMP_MSB * 256 + s.regs RTC_TEMP_LSB := by omega
  simp only [intOfUnion, Nat.mod_eq_of_lt hl, Nat.mod_eq_of_lt hm,
    show (2 : Nat) ^ 16 = 65536 from rfl, show (2 : Nat) ^ (16 - 1) = 32768 from rfl, hu]
  rfl

/-- C16, defect of the code: on a target whose `int` has 32 bits the two upper
bytes of the union are never written.  For the register pair msb = 0xFF,
lsb = 0xC0 (-0.25 C) and no transport error, `temperature()` returns 1023 when
those bytes hold zero, and -1, the value the claim states, only when they
happen to hold 0xFFFF; the pair msb = 0x19, lsb = 0x00 gives 100 with zero
upper bytes.  With a 16-bit `int` the same pair gives -1. -/
theorem temperature_int32_failing :
    (temperature 32
      (Sim.ofRegs (fun a => if a = 0x11 then 0xFF else if a = 0x12 then 0xC0 else 0))).1
      = 1023 ∧
    (temperature 32
      { Sim.ofRegs (fun a => if a = 0x11 then 0xFF else if a = 0x12 then 0xC0 else 0)
        with uninit := 0xFFFF0000 }).1 = -1 ∧
    (temperature 32 (Sim.ofRegs (fun a => if a = 0x11 then 0x19 else 0))).1 = 100 ∧
    (temperature 16
      (Sim.ofRegs (fun a => if a = 0x11 then 0xFF else if a = 0x12 then 0xC0 else 0))).1
      = -1 := by
  decide

/-! ## Time codec: transport failure and register bits -/

/-- C17: for every nonzero transport code e, if the end of the transmission
that sets the register pointer to RTC_SECONDS returns e, then `read` returns e,
performs no other bus operation (no data request, no byte read), leaves the
caller's structure and the registers as they were, and records e in
`errCode`. -/
theorem read_pointer_failure (tm : tmElements_t) (s : Sim) (e : Nat) (rest : List Nat)
    (he : e ≠ 0) (hb : e < 256) (hf : s.faults = e :: rest) :
    (read tm s).1 = e ∧
    (read tm s).2.1 = tm ∧
    (read tm s).2.2.errCode = e ∧
    (read tm s).2.2.log = s.log ++ [BusOp.endTransmission [RTC_SECONDS] e] ∧
    (read tm s).2.2.regs = s.regs ∧
    (read tm s).2.2.rxBuf = s.rxBuf := by
  have hm : e % 256 = e := Nat.mod_eq_of_lt hb
  simp [read, i2cBeginTransmission, i2cWrite, i2cEndTransmission, hf, hm, he, RTC_SECONDS]

theorem read_pointer_failure_witness :
    (2 : Nat) ≠ 0 ∧ (2 : Nat) < 256 ∧
    ({ Sim.ofRegs (fun _ => 0x11) with faults := [2] } : Sim).faults = [2] ∧
    (read ⟨1, 2, 3, 4, 5, 6, 7⟩ { Sim.ofRegs (fun _ => 0x11) with faults := [2] }).1 = 2 ∧
    (read ⟨1, 2, 3, 4, 5, 6, 7⟩ { Sim.ofRegs (fun _ => 0x11) with faults := [2] }).2.1
      = ⟨1, 2, 3, 4, 5, 6, 7⟩ :=
  ⟨by decide, by decide, rfl,
   (read_pointer_failure ⟨1, 2, 3, 4, 5, 6, 7⟩
     { Sim.ofRegs (fun _ => 0x11) with faults := [2] } 2 [] (by decide) (by decide) rfl).1,
   (read_pointer_failure ⟨1, 2, 3, 4, 5, 6, 7⟩
     { Sim.ofRegs (fun _ => 0x11) with faults := [2] } 2 [] (by decide) (by decide) rfl).2.1⟩

/-- C18: for every time t with hour in 0..23, every prior content of the
registers (the 12/24 bit of the hours register included) and no transport
error, the hours register after `write t` holds `dec2bcd t.Hour`, whose bit 6
(HR1224) is clear. -/
theorem write_hours_24h (t : tmElements_t) (s : Sim) (hf : s.faults = [])
    (hh : t.Hour ≤ 23) :
    (write t s).2.regs RTC_HOURS = dec2bcd t.Hour ∧
    ((write t s).2.regs RTC_HOURS).testBit HR1224 = false := by
  obtain ⟨_, _, hw⟩ := write_ok t s hf
  have e : (write t s).2.regs RTC_HOURS = dec2bcd t.Hour := by
    rw [hw]
    simp [RTC_HOURS, storeBytes, Function.update_apply, Nat.mod_eq_of_lt (dec2bcd_lt _)]
  refine ⟨e, ?_⟩
  rw [e]
  have : ∀ n, n < 24 → (dec2bcd n).testBit HR1224 = false := by decide
  exact this t.Hour (by omega)

theorem write_hours_24h_witness :
    (Sim.ofRegs (fun a => if a = 2 then 0x52 else 0)).faults = [] ∧ 23 ≤ 23 ∧
    (write ⟨59, 58, 23, 7, 31, 12, 56⟩
        (Sim.ofRegs (fun a => if a = 2 then 0x52 else 0))).2.regs RTC_HOURS = 0x23 :=
  ⟨rfl, by decide,
   (write_hours_24h ⟨59, 58, 23, 7, 31, 12, 56⟩
     (Sim.ofRegs (fun a => if a = 2 then 0x52 else 0)) rfl (by decide)).1⟩

/-- Bytes that agree on every bit but `k` are equal under a mask without bit `k`. -/
theorem and_mask_congr (x y m k : Nat) (hk : m.testBit k = false)
    (h : ∀ i, i ≠ k → x.testBit i = y.testBit i) :
    (x % 256) &&& m = (y % 256) &&& m := by
  apply Nat.eq_of_testBit_eq
  intro i
  rw [Nat.testBit_and, Nat.testBit_and, show (256 : Nat) = 2 ^ 8 from rfl,
    Nat.testBit_mod_two_pow, Nat.testBit_mod_two_pow]
  by_cases hi : i = k
  · subst hi; simp [hk]
  · rw [h i hi]

/-- Bytes equal once bit `k` is masked off agree on every other bit. -/
theorem testBit_eq_of_masked (x y k : Nat) (hx : x < 256) (hy : y < 256) (hk : k < 8)
    (h : x &&& not8 (2 ^ k) = y &&& not8 (2 ^ k)) :
    ∀ i, i ≠ k → x.testBit i = y.testBit i := by
  intro i hi
  have hm : 2 ^ k % 256 = 2 ^ k := Nat.mod_eq_of_lt (by
    calc 2 ^ k < 2 ^ 8 := Nat.pow_lt_pow_right (by norm_num) hk
      _ = 256 := by norm_num)
  have hd : decide (k = i) = false := decide_eq_false (fun e => hi e.symm)
  have hx' := and_not8_testBit x (2 ^ k) i hx
  have hy' := and_not8_testBit y (2 ^ k) i hy
  rw [hm, Nat.testBit_two_pow, hd] at hx' hy'
  simp only [Bool.not_false, Bool.and_true] at hx' hy'
  rw [← hx', ← hy', h]

/-- C19: for two device states without transport error whose registers
0x00..0x06 agree except possibly in bit 6 of the hours register (12/24-hour
bit) and bit 7 of the month register (century bit), `read` succeeds on both and
yields the same time; on registers holding bytes the hour is `bcd2dec` of the
hours byte with bit 6 masked off, the month is `bcd2dec` of the month byte with
bit 7 masked off, and the weekday is the raw byte. -/
theorem read_ignores_flag_bits (tm1 tm2 : tmElements_t) (s1 s2 : Sim)
    (hf1 : s1.faults = []) (hf2 : s2.faults = [])
    (hb : ∀ a, a ≤ 6 → s1.regs a < 256)
    (hagree : ∀ a, a ≤ 6 → a ≠ RTC_HOURS → a ≠ RTC_MONTH → s1.regs a = s2.regs a)
    (hhr : ∀ i, i ≠ HR1224 →
      (s1.regs RTC_HOURS).testBit i = (s2.regs RTC_HOURS).testBit i)
    (hmo : ∀ i, i ≠ CENTURY →
      (s1.regs RTC_MONTH).testBit i = (s2.regs RTC_MONTH).testBit i) :
    (read tm1 s1).1 = 0 ∧ (read tm2 s2).1 = 0 ∧
    (read tm1 s1).2.1 = (read tm2 s2).2.1 ∧
    (read tm1 s1).2.1.Hour = bcd2dec (s1.regs RTC_HOURS &&& not8 (_BV HR1224)) ∧
    (read tm1 s1).2.1.Month = bcd2dec (s1.regs RTC_MONTH &&& not8 (_BV CENTURY)) ∧
    (read tm1 s1).2.1.Wday = s1.regs RTC_DAY := by
  obtain ⟨a1, a2⟩ := read_ok tm1 s1 hf1
  obtain ⟨b1, b2⟩ := read_ok tm2 s2 hf2
  have e0 := hagree 0 (by decide) (by decide) (by decide)
  have e1 := hagree 1 (by decide) (by decide) (by decide)
  have e3 := hagree 3 (by decide) (by decide) (by decide)
  have e4 := hagree 4 (by decide) (by decide) (by decide)
  have e6 := hagree 6 (by decide) (by decide) (by decide)
  have e2 : (s1.regs 2 % 256) &&& 191 = (s2.regs 2 % 256) &&& 191 :=
    and_mask_congr _ _ 191 HR1224 (by decide) hhr
  have e5 : (s1.regs 5 % 256) &&& 127 = (s2.regs 5 % 256) &&& 127 :=
    and_mask_congr _ _ 127 CENTURY (by decide) hmo
  refine ⟨a1, b1, ?_, ?_, ?_, ?_⟩
  · rw [a2, b2, e0, e1, e2, e3, e4, e5, e6]
  · rw [a2]
    show bcd2dec ((s1.regs 2 % 256) &&& 191) = bcd2dec (s1.regs 2 &&& 191)
    rw [Nat.mod_eq_of_lt (hb 2 (by decide))]
  · rw [a2]
    show bcd2dec ((s1.regs 5 % 256) &&& 127) = bcd2dec (s1.regs 5 &&& 127)
    rw [Nat.mod_eq_of_lt (hb 5 (by decide))]
  · rw [a2]
    exact Nat.mod_eq_of_lt (hb 3 (by decide))

theorem read_ignores_flag_bits_witness :
    (read ⟨0, 0, 0, 0, 0, 0, 0⟩
        (Sim.ofRegs (fun a => if a = 2 then 0x63 else if a = 5 then 0x92 else 0x07))).2.1 =
    (read ⟨9, 9, 9, 9, 9, 9, 9⟩
        (Sim.ofRegs (fun a => if a = 2 then 0x23 else if a = 5 then 0x12 else 0x07))).2.1 ∧
    (read ⟨0, 0, 0, 0, 0, 0, 0⟩
        (Sim.ofRegs (fun a => if a = 2 then 0x63 else if a = 5 then 0x92 else 0x07))).2.1.Hour
      = bcd2dec (0x63 &&& not8 (_BV HR1224)) :=
  ⟨(read_ignores_flag_bits ⟨0, 0, 0, 0, 0, 0, 0⟩ ⟨9, 9, 9, 9, 9, 9, 9⟩
      (Sim.ofRegs (fun a => if a = 2 then 0x63 else if a = 5 then 0x92 else 0x07))
      (Sim.ofRegs (fun a => if a = 2 then 0x23 else if a = 5 then 0x12 else 0x07))
      rfl rfl (by decide) (by decide)
      (testBit_eq_of_masked 0x63 0x23 6 (by decide) (by decide) (by decide) (by decide))
      (testBit_eq_of_masked 0x92 0x12 7 (by decide) (by decide) (by decide)
        (by decide))).2.2.1,
   (read_ignores_flag_bits ⟨0, 0, 0, 0, 0, 0, 0⟩ ⟨9, 9, 9, 9, 9, 9, 9⟩
      (Sim.ofRegs (fun a => if a = 2 then 0x63 else if a = 5 then 0x92 else 0x07))
      (Sim.ofRegs (fun a => if a = 2 then 0x23 else if a = 5 then 0x12 else 0x07))
      rfl rfl (by decide) (by decide)
      (testBit_eq_of_masked 0x63 0x23 6 (by decide) (by decide) (by decide) (by decide))
      (testBit_eq_of_masked 0x92 0x12 7 (by decide) (by decide) (by decide)
        (by decide))).2.2.2.1⟩

/-! ## Alarm codec: mask bits and BCD digits -/

/-- The bytes `setAlarm` computes are the encoded fields ORed with their mask
bits, and fit in a byte. -/
theorem alarmBytes_eq (alarmType seconds minutes hours daydate : Nat) :
    alarmBytes alarmType seconds minutes hours daydate =
      (dec2bcd seconds ||| (if alarmType &&& 0x01 ≠ 0 then 0x80 else 0),
       dec2bcd minutes ||| (if alarmType &&& 0x02 ≠ 0 then 0x80 else 0),
       dec2bcd hours ||| (if alarmType &&& 0x04 ≠ 0 then 0x80 else 0),
       (dec2bcd daydate ||| (if alarmType &&& 0x10 ≠ 0 then 0x40 else 0)) |||
         (if alarmType &&& 0x08 ≠ 0 then 0x80 else 0)) ∧
    (alarmBytes alarmType seconds minutes hours daydate).1 < 256 ∧
    (alarmBytes alarmType seconds minutes hours daydate).2.1 < 256 ∧
    (alarmBytes alarmType seconds minutes hours daydate).2.2.1 < 256 ∧
    (alarmBytes alarmType seconds minutes hours daydate).2.2.2 < 256 := by
  obtain ⟨es, ls⟩ := or_if_mask (alarmType &&& 0x01 ≠ 0) (dec2bcd seconds) 0x80
    (dec2bcd_lt _) (by decide)
  obtain ⟨em, lm⟩ := or_if_mask (alarmType &&& 0x02 ≠ 0) (dec2bcd minutes) 0x80
    (dec2bcd_lt _) (by decide)
  obtain ⟨eh, lh⟩ := or_if_mask (alarmType &&& 0x04 ≠ 0) (dec2bcd hours) 0x80
    (dec2bcd_lt _) (by decide)
  obtain ⟨ed1, hd1⟩ := or_if_mask (alarmType &&& 0x10 ≠ 0) (dec2bcd daydate) 0x40
    (dec2bcd_lt _) (by decide)
  obtain ⟨ed, ld⟩ := or_if_mask (alarmType &&& 0x08 ≠ 0)
    (dec2bcd daydate ||| (if alarmType &&& 0x10 ≠ 0 then 0x40 else 0)) 0x80 hd1 (by decide)
  have e : alarmBytes alarmType seconds minutes hours daydate =
      (dec2bcd seconds ||| (if alarmType &&& 0x01 ≠ 0 then 0x80 else 0),
       dec2bcd minutes ||| (if alarmType &&& 0x02 ≠ 0 then 0x80 else 0),
       dec2bcd hours ||| (if alarmType &&& 0x04 ≠ 0 then 0x80 else 0),
       (dec2bcd daydate ||| (if alarmType &&& 0x10 ≠ 0 then 0x40 else 0)) |||
         (if alarmType &&& 0x08 ≠ 0 then 0x80 else 0)) := by
    simp only [alarmBytes, show _BV A1M1 = 0x80 from rfl, show _BV A1M2 = 0x80 from rfl,
      show _BV A1M3 = 0x80 from rfl, show _BV A1M4 = 0x80 from rfl,
      show _BV DYDT = 0x40 from rfl, es, em, eh, ed1, ed]
  rw [e]
  exact ⟨rfl, ls, lm, lh, ld⟩

/-- Without transport error `setAlarm` leaves the bytes it computed in the
registers of the alarm it sets. -/
theorem setAlarm_regs_ok (alarmType seconds minutes hours daydate : Nat) (s : Sim)
    (hf : s.faults = []) :
    (alarmType &&& 0x80 = 0 →
      (setAlarm alarmType seconds minutes hours daydate s).regs ALM1_SECONDS =
        (alarmBytes alarmType seconds minutes hours daydate).1 ∧
      (setAlarm alarmType seconds minutes hours daydate s).regs (ALM1_SECONDS + 1) =
        (alarmBytes alarmType seconds minutes hours daydate).2.1 ∧
      (setAlarm alarmType seconds minutes hours daydate s).regs (ALM1_SECONDS + 2) =
        (alarmBytes alarmType seconds minutes hours daydate).2.2.1 ∧
      (setAlarm alarmType seconds minutes hours daydate s).regs (ALM1_SECONDS + 3) =
        (alarmBytes alarmType seconds minutes hours daydate).2.2.2) ∧
    (alarmType &&& 0x80 ≠ 0 →
      (setAlarm alarmType seconds minutes hours daydate s).regs ALM2_MINUTES =
        (alarmBytes alarmType seconds minutes hours daydate).2.1 ∧
      (setAlarm alarmType seconds minutes hours daydate s).regs (ALM2_MINUTES + 1) =
        (alarmBytes alarmType seconds minutes hours daydate).2.2.1 ∧
      (setAlarm alarmType seconds minutes hours daydate s).regs (ALM2_MINUTES + 2) =
        (alarmBytes alarmType seconds minutes hours daydate).2.2.2) := by
  obtain ⟨_, l0, l1, l2, l3⟩ := alarmBytes_eq alarmType seconds minutes hours daydate
  constructor
  · intro h
    have e : setAlarm alarmType seconds minutes hours daydate s =
        (writeRTC1 10 (alarmBytes alarmType seconds minutes hours daydate).2.2.2
          (writeRTC1 9 (alarmBytes alarmType seconds minutes hours daydate).2.2.1
            (writeRTC1 8 (alarmBytes alarmType seconds minutes hours daydate).2.1
              (writeRTC1 7 (alarmBytes alarmType seconds minutes hours daydate).1 s).2).2).2).2 := by
      simp only [setAlarm, if_pos h]
      rfl
    generalize (alarmBytes alarmType seconds minutes hours daydate).1 = b0 at e l0
    generalize (alarmBytes alarmType seconds minutes hours daydate).2.1 = b1 at e l1
    generalize (alarmBytes alarmType seconds minutes hours daydate).2.2.1 = b2 at e l2
    generalize (alarmBytes alarmType seconds minutes hours daydate).2.2.2 = b3 at e l3
    obtain ⟨_, a2, a3⟩ := writeRTC1_ok 7 b0 s hf
    obtain ⟨_, b2', b3'⟩ := writeRTC1_ok 8 b1 _ a2
    obtain ⟨_, c2, c3⟩ := writeRTC1_ok 9 b2 _ b2'
    obtain ⟨_, _, d3⟩ := writeRTC1_ok 10 b3 _ c2
    rw [e, d3, c3, b3', a3]
    simp [ALM1_SECONDS, Function.update_apply, Nat.mod_eq_of_lt l0, Nat.mod_eq_of_lt l1,
      Nat.mod_eq_of_lt l2, Nat.mod_eq_of_lt l3]
  · intro h
    have e : setAlarm alarmType seconds minutes hours daydate s =
        (writeRTC1 13 (alarmBytes alarmType seconds minutes hours daydate).2.2.2
          (writeRTC1 12 (alarmBytes alarmType seconds minutes hours daydate).2.2.1
            (writeRTC1 11 (alarmBytes alarmType seconds minutes hours daydate).2.1 s).2).2).2 := by
      simp only [setAlarm, if_neg h]
      rfl
    generalize (alarmBytes alarmType seconds minutes hours daydate).2.1 = b1 at e l1
    generalize (alarmBytes alarmType seconds minutes hours daydate).2.2.1 = b2 at e l2
    generalize (alarmBytes alarmType seconds minutes hours daydate).2.2.2 = b3 at e l3
    obtain ⟨_, b2', b3'⟩ := writeRTC1_ok 11 b1 s hf
    obtain ⟨_, c2, c3⟩ := writeRTC1_ok 12 b2 _ b2'
    obtain ⟨_, _, d3⟩ := writeRTC1_ok 13 b3 _ c2
    rw [e, d3, c3, b3']
    simp [ALM2_MINUTES, Function.update_apply, Nat.mod_eq_of_lt l1,
      Nat.mod_eq_of_lt l2, Nat.mod_eq_of_lt l3]

theorem alarm_digits_60 : ∀ n, n < 60 →
    bcd2dec ((dec2bcd n ||| 0x80) &&& 0x7F) = n ∧ bcd2dec ((dec2bcd n ||| 0) &&& 0x7F) = n := by
  decide

theorem alarm_digits_32 : ∀ n, n < 32 →
    bcd2dec (((dec2bcd n ||| 0x40) ||| 0x80) &&& 0x3F) = n ∧
    bcd2dec (((dec2bcd n ||| 0x40) ||| 0) &&& 0x3F) = n ∧
    bcd2dec (((dec2bcd n ||| 0) ||| 0x80) &&& 0x3F) = n ∧
    bcd2dec (((dec2bcd n ||| 0) ||| 0) &&& 0x3F) = n := by
  decide

/-- The fields are recovered from the bytes `setAlarm` computes. -/
theorem alarmBytes_decode (alarmType seconds minutes hours daydate : Nat)
    (hs : seconds ≤ 59) (hm : minutes ≤ 59) (hh : hours ≤ 23) (hd : daydate ≤ 31) :
    bcd2dec ((alarmBytes alarmType seconds minutes hours daydate).1 &&& 0x7F) = seconds ∧
    bcd2dec ((alarmBytes alarmType seconds minutes hours daydate).2.1 &&& 0x7F) = minutes ∧
    bcd2dec ((alarmBytes alarmType seconds minutes hours daydate).2.2.1 &&& 0x7F) = hours ∧
    bcd2dec ((alarmBytes alarmType seconds minutes hours daydate).2.2.2 &&& 0x3F)
      = daydate := by
  rw [(alarmBytes_eq alarmType seconds minutes hours daydate).1]
  obtain ⟨s1, s0⟩ := alarm_digits_60 seconds (by omega)
  obtain ⟨m1, m0⟩ := alarm_digits_60 minutes (by omega)
  obtain ⟨h1, h0⟩ := alarm_digits_60 hours (by omega)
  obtain ⟨d11, d10, d01, d00⟩ := alarm_digits_32 daydate (by omega)
  refine ⟨?_, ?_, ?_, ?_⟩
  · show bcd2dec ((dec2bcd seconds ||| if alarmType &&& 0x01 ≠ 0 then 0x80 else 0) &&& 0x7F) = _
    split_ifs
    · exact s1
    · exact s0
  · show bcd2dec ((dec2bcd minutes ||| if alarmType &&& 0x02 ≠ 0 then 0x80 else 0) &&& 0x7F) = _
    split_ifs
    · exact m1
    · exact m0
  · show bcd2dec ((dec2bcd hours ||| if alarmType &&& 0x04 ≠ 0 then 0x80 else 0) &&& 0x7F) = _
    split_ifs
    · exact h1
    · exact h0
  · show bcd2dec (((dec2bcd daydate ||| if alarmType &&& 0x10 ≠ 0 then 0x40 else 0) |||
      if alarmType &&& 0x08 ≠ 0 then 0x80 else 0) &&& 0x3F) = _
    by_cases c1 : alarmType &&& 0x10 ≠ 0 <;> by_cases c2 : alarmType &&& 0x08 ≠ 0
    · rw [if_pos c1, if_pos c2]; exact d11
    · rw [if_pos c1, if_neg c2]; exact d10
    · rw [if_neg c1, if_pos c2]; exact d01
    · rw [if_neg c1, if_neg c2]; exact d00

/-- C20: for every alarmType, seconds 0..59, minutes 0..59, hours 0..23, daydate
up to 31 (1..31 in particular) and no transport error, masking bit 7 off the seconds, minutes and hours
bytes `setAlarm` has written and bits 7 and 6 off the day/date byte, and
applying `bcd2dec`, recovers the seconds, minutes, hours and daydate values:
all four bytes for an alarm-1 type, the three bytes of alarm 2 for an alarm-2
type. -/
theorem setAlarm_fields_recoverable (alarmType seconds minutes hours daydate : Nat)
    (s : Sim) (hf : s.faults = []) (hs : seconds ≤ 59) (hm : minutes ≤ 59)
    (hh : hours ≤ 23) (hd : daydate ≤ 31) :
    (alarmType &&& 0x80 = 0 →
      bcd2dec ((setAlarm alarmType seconds minutes hours daydate s).regs ALM1_SECONDS
        &&& 0x7F) = seconds ∧
      bcd2dec ((setAlarm alarmType seconds minutes hours daydate s).regs (ALM1_SECONDS + 1)
        &&& 0x7F) = minutes ∧
      bcd2dec ((setAlarm alarmType seconds minutes hours daydate s).regs (ALM1_SECONDS + 2)
        &&& 0x7F) = hours ∧
      bcd2dec ((setAlarm alarmType seconds minutes hours daydate s).regs (ALM1_SECONDS + 3)
        &&& 0x3F) = daydate) ∧
    (alarmType &&& 0x80 ≠ 0 →
      bcd2dec ((setAlarm alarmType seconds minutes hours daydate s).regs ALM2_MINUTES
        &&& 0x7F) = minutes ∧
      bcd2dec ((setAlarm alarmType seconds minutes hours daydate s).regs (ALM2_MINUTES + 1)
        &&& 0x7F) = hours ∧
      bcd2dec ((setAlarm alarmType seconds minutes hours daydate s).regs (ALM2_MINUTES + 2)
        &&& 0x3F) = daydate) := by
  obtain ⟨r1, r2⟩ := setAlarm_regs_ok alarmType seconds minutes hours daydate s hf
  obtain ⟨d0, d1, d2, d3⟩ := alarmBytes_decode alarmType seconds minutes hours daydate
    hs hm hh hd
  constructor
  · intro h
    obtain ⟨e0, e1, e2, e3⟩ := r1 h
    rw [e0, e1, e2, e3]
    exact ⟨d0, d1, d2, d3⟩
  · intro h
    obtain ⟨e1, e2, e3⟩ := r2 h
    rw [e1, e2, e3]
    exact ⟨d1, d2, d3⟩

theorem setAlarm_fields_recoverable_witness :
    (Sim.ofRegs (fun _ => 0)).faults = [] ∧ 59 ≤ 59 ∧ 45 ≤ 59 ∧ 23 ≤ 23 ∧ 31 ≤ 31 ∧
    0x1F &&& 0x80 = 0 ∧
    bcd2dec ((setAlarm 0x1F 59 45 23 31 (Sim.ofRegs (fun _ => 0))).regs (ALM1_SECONDS + 3)
      &&& 0x3F) = 31 ∧
    0x9F &&& 0x80 ≠ 0 ∧
    bcd2dec ((setAlarm 0x9F 59 45 23 31 (Sim.ofRegs (fun _ => 0))).regs ALM2_MINUTES
      &&& 0x7F) = 45 :=
  ⟨rfl, by decide, by decide, by decide, by decide, by decide,
   ((setAlarm_fields_recoverable 0x1F 59 45 23 31 (Sim.ofRegs (fun _ => 0)) rfl
      (by decide) (by decide) (by decide) (by decide)).1 (by decide)).2.2.2,
   by decide,
   ((setAlarm_fields_recoverable 0x9F 59 45 23 31 (Sim.ofRegs (fun _ => 0)) rfl
      (by decide) (by decide) (by decide) (by decide)).2 (by decide)).1⟩

end DS3232RTC
